import Mathlib

/-!
# Verification of the MedLama multi-turn dialogue controller (`multiturn.py`)

This file gives a shallow embedding of the dialogue controller in
`multiturn.py` and proves/refutes the frozen claims about it.

Modelling conventions:

* A Python `State` dict (the LangGraph `TypedDict`) is embedded as `PState`,
  a record whose fields are `Option`-valued: `none` models an absent key
  (dict access `state["k"]` on an absent key is a `KeyError`, modelled with
  `Except`), `some v` models a present key.  Nested dicts with a single
  relevant key (`research_results["medical_research"]`,
  `report["content"]`, `symptom_details` with `extracted_data` /
  `last_updated`) are embedded as `Option`-valued payloads, where the payload
  `none` models the empty dict `\x7b\x7d`.
* The two external clients are oracles passed as parameters: `llm` models
  `ChatGoogleGenerativeAI.invoke` (prompt text in, either generated text or a
  raised error out) and `net` models the HTTP transport of the Perplexity
  request in `perplexity_research` (query in, either the extracted answer
  text or a `requests.RequestException` message out).  The HTTP header/JSON
  plumbing of `perplexity_research` is abstracted into the `net` oracle; the
  `try/except requests.RequestException` wrapper is embedded faithfully.
* LangGraph's `StateGraph` execution is embedded as a small-step interpreter
  over the node set, following the edges declared by `graph_builder`:
  nodes return partial updates that are merged (plain key overwrite, as for
  a `TypedDict` without reducers), conditional edges evaluate
  `determine_next_stage` on the post-node state and map its label through the
  declared path map (an unmapped label is a runtime error, as in LangGraph),
  and `recursion_limit = 8` bounds the number of node steps, exceeding it
  being `GraphRecursionError`.
* Python string operations are embedded over `List Char`
  (`re.sub` instances of `beautify_text` as direct left-to-right
  non-overlapping scans of their concrete patterns, `in`/`lower` as
  substring search / `toLower`).  `textwrap.fill` is external standard
  library code and is abstracted as a function parameter.
-/

/-- A chat message, Python `{"role": ..., "content": ...}`. -/
structure Msg where
  role : String
  content : String
deriving DecidableEq

/-- The LangGraph state dict of `multiturn.py` (`class State(TypedDict)`),
with `Option` fields modelling possibly-absent dict keys.  `risk_assessment`
is declared in `State` but never written by any node; `risk` is written by
`final_response` without being declared.  Field payloads:
`research_results` holds the `"medical_research"` entry (`none` = empty dict),
`report` holds the `"content"` entry, `symptom_details` holds the pair
(`extracted_data`, `last_updated`). -/
structure PState where
  messages : Option (List Msg) := none
  research_results : Option (Option String) := none
  analysis_complete : Option Bool := none
  report : Option (Option String) := none
  conversation_stage : Option String := none
  symptom_details : Option (Option (String × Nat)) := none
  question_count : Option Nat := none
  risk_assessment : Option String := none
  risk : Option String := none
deriving DecidableEq

/-- Python exceptions that can escape the embedded code. -/
inductive PyErr where
  | graphRecursion
  | keyError (key : String)
  | indexError
  | llmError (msg : String)
  | unboundLocal (name : String)
  | invalidRoute (label : String)
deriving DecidableEq

/-- An external completion/transport client: prompt (or query) in, either the
returned text or a raised/transport error out. -/
def Oracle : Type := String → Except String String

/-- Python dict access `d[k]`: `KeyError` when the key is absent. -/
def getKey (o : Option α) (key : String) : Except PyErr α :=
  match o with
  | some v => Except.ok v
  | none => Except.error (PyErr.keyError key)

/-! ## Python string primitives -/

/-- `pat` is a prefix of `l` (Bool). -/
def startsWithL : List Char → List Char → Bool
  | [], _ => true
  | _ :: _, [] => false
  | p :: ps, c :: cs => p == c && startsWithL ps cs

/-- Python `pat in l`: `pat` occurs as a contiguous substring of `l`. -/
def hasSubstrL (pat : List Char) : List Char → Bool
  | [] => startsWithL pat []
  | c :: cs => startsWithL pat (c :: cs) || hasSubstrL pat cs

/-- Python `pat in s` on strings. -/
def strHasSubstr (pat s : String) : Bool := hasSubstrL pat.data s.data

/-- Python `s.lower()` (ASCII; embedded character-wise so that it computes). -/
def strToLower (s : String) : String := String.mk (s.data.map Char.toLower)

/-- Python `sep.join(items)`. -/
def joinSep (sep : String) : List String → String
  | [] => ""
  | [x] => x
  | x :: xs => x ++ sep ++ joinSep sep xs

/-! ## Prompt construction (the f-strings of `multiturn.py`) -/

/-- `SYSTEM_PROMPT` of `multiturn.py`. -/
def SYSTEM_PROMPT : String :=
  "You are an advanced AI medical assistant with access to up-to-date medical literature, expert guidelines, and peer-reviewed studies. Your role is to:\n1. Conduct a structured diagnostic evaluation, mimicking a board-certified physician's approach.\n2. Use differential diagnosis methods, listing probable conditions with confidence scores.\n3. Prioritize high-accuracy, medically reviewed sources (such as but not limited to PubMed, Mayo Clinic, NIH, UpToDate).\n4. Clearly communicate **when emergency medical care is required**.\n5. Provide structured medical reports with citations, risk assessments, and next steps.\n\nIMPORTANT: If a user describes symptoms that suggest a medical emergency (such as signs of heart attack, stroke, severe bleeding, difficulty breathing, or severe allergic reaction), immediately advise them to seek emergency medical care.\n"

/-- The extraction prompt of `extract_symptom_details`. -/
def extractPromptOf (all_user_input : String) : String :=
  "\n    Based on the following user messages, extract key symptom information:\n\n    " ++
  all_user_input ++
  "\n\n    Extract and organize these details into a structured format:\n    - Primary symptoms (list each with severity and duration)\n    - Secondary/associated symptoms\n    - Timing and patterns\n    - Aggravating or relieving factors\n    - Relevant medical history mentioned\n\n    Return as a concise, structured JSON-like format.\n    "

/-- The `question_count == 0` prompt of `interactive_conversation`. -/
def firstQuestionPrompt (user_input : String) : String :=
  "\n        " ++ SYSTEM_PROMPT ++
  "\n\n        You are in the information gathering stage. The user has shared some symptoms.\n        First, acknowledge what they've shared, showing empathy and understanding.\n        Then, ask ONE specific follow-up question to gather more details about their symptoms.\n        Focus on symptom duration, severity, triggers, or associated symptoms.\n\n        User input: " ++
  user_input ++ "\n        "

/-- The follow-up prompt of `interactive_conversation` (`question_count > 0`). -/
def followupPrompt (history : String) : String :=
  "\n        " ++ SYSTEM_PROMPT ++
  "\n\n        You are in the information gathering stage. Here's the conversation so far:\n        " ++
  history ++
  "\n\n        Based on this information, ask ONE specific follow-up question to gather more details.\n        Focus on any missing critical information about:\n        - Symptom duration and progression\n        - Aggravating or alleviating factors\n        - Associated symptoms\n        - Medical history relevance\n        - Only ask questions relevant to the symptoms already mentioned\n\n        If you have enough information (at least 3-4 detailed symptom descriptions) OR have asked 4+ questions,\n        instead of asking a question, say \"I have enough information to analyze your symptoms now.\"\n        "

/-- The research prompt of `determine_research_needs`. -/
def researchPromptOf (all_user_input extracted_data : String) : String :=
  "\n    Based on the following user inputs describing symptoms and medical context:\n\n    USER MESSAGES:\n    " ++
  all_user_input ++
  "\n\n    EXTRACTED SYMPTOM DETAILS:\n    " ++
  extracted_data ++
  "\n\n    Perform medical research on the most probable conditions, including:\n    1. List of likely conditions ranked by probability\n    2. Brief explanation for each condition\n    3. Relevant medical sources\n    4. Suggested diagnostic steps\n    "

/-- Rendering of the Python set display `\x7b"LOW", "MEDIUM", "HIGH"\x7d`
interpolated into the analysis f-string (one representative element order;
CPython renders the set in hash order). -/
def riskSetRendered : String := "\x7b'LOW', 'MEDIUM', 'HIGH'\x7d"

/-- The analysis prompt of `generate_analysis`. -/
def analysisPromptOf (all_user_input extracted_data research_data : String) : String :=
  "\n    Based on the following user symptoms and research findings, generate a detailed medical analysis:\n\n    USER SYMPTOMS:\n    " ++
  all_user_input ++
  "\n\n    EXTRACTED SYMPTOM DETAILS:\n    " ++
  extracted_data ++
  "\n\n    RESEARCH FINDINGS:\n    " ++
  (research_data ++
  ("\n\n    RISK ASSESSMENT (TO GENERATE OUTPUT):\n    " ++ riskSetRendered ++
  " risk of serious conditions based on the symptoms and research findings. It must match this exact format.\n    Your analysis should include:\n    1. A summary of the key symptoms and risk factors.\n    2. A differential diagnosis with conditions ranked by likelihood (include confidence levels as percentages)\n    3. Explanation of each potential condition\n    4. Recommended next steps (diagnostics, specialists to consult, lifestyle recommendations)\n    5. Clear indication if any symptoms suggest urgent/emergency care is needed\n    "))

/-! ## Helper functions of `multiturn.py` -/

/-- `format_conversation_history(messages)`. -/
def format_conversation_history (messages : List Msg) : String :=
  String.join (messages.map (fun m =>
    (if m.role == "user" then "User" else "Assistant") ++ ": " ++ m.content ++ "\n\n"))

/-- The user-message contents of a history, joined by `sep`
(Python `sep.join(msg["content"] for msg in messages if msg["role"] == "user")`). -/
def userContentsJoined (sep : String) (messages : List Msg) : String :=
  joinSep sep ((messages.filter (fun m => m.role == "user")).map Msg.content)

/-- `symptom_details.get("last_updated", 0)`. -/
def lastUpdatedOf (symptom_details : Option (String × Nat)) : Nat :=
  match symptom_details with
  | some p => p.2
  | none => 0

/-- `symptom_details.get("extracted_data", "No structured symptom data available")`. -/
def extractedOf (symptom_details : Option (String × Nat)) : String :=
  match symptom_details with
  | some p => p.1
  | none => "No structured symptom data available"

/-- `extract_symptom_details(messages)`: calls the completion client on the
extraction prompt; an exception from the client is caught and replaced by the
`"Error processing symptoms"` placeholder (the `try/except` of the source). -/
def extract_symptom_details (llm : Oracle) (messages : List Msg) : String × Nat :=
  let all_user_input := userContentsJoined " " messages
  match llm (extractPromptOf all_user_input) with
  | Except.ok r => (r, messages.length)
  | Except.error _ => ("Error processing symptoms", messages.length)

/-- The symptom-details update at the top of `interactive_conversation`:
re-extract only when the last message is from the user and new messages
exist since `last_updated`. -/
def updatedSymptomDetails (llm : Oracle) (current_messages : List Msg)
    (symptom_details : Option (String × Nat)) : Option (String × Nat) :=
  match current_messages.getLast? with
  | some m =>
    if m.role == "user" then
      if current_messages.length > lastUpdatedOf symptom_details then
        some (extract_symptom_details llm current_messages)
      else symptom_details
    else symptom_details
  | none => symptom_details

/-- The prompt chosen by `interactive_conversation`: first-question prompt
(which reads `current_messages[-1]`, an `IndexError` on an empty history)
when `question_count == 0`, otherwise the follow-up prompt over the whole
history. -/
def conversationPrompt (question_count : Nat) (current_messages : List Msg) :
    Except PyErr String :=
  if question_count == 0 then
    match current_messages.getLast? with
    | some m => Except.ok (firstQuestionPrompt m.content)
    | none => Except.error PyErr.indexError
  else
    Except.ok (followupPrompt (format_conversation_history current_messages))

/-- The readiness test of `interactive_conversation`:
`"enough information" in response.content.lower() or question_count >= 4`. -/
def enoughCond (resp : String) (question_count : Nat) : Bool :=
  strHasSubstr "enough information" (strToLower resp) || decide (4 ≤ question_count)

/-! ## Graph nodes -/

/-- `interactive_conversation(state)`: update symptom details, ask the
completion client for the next utterance, append it as an assistant message,
bump `question_count`, and set the next stage from the readiness test.
Errors raised by `llm` on the conversation prompt propagate (`llmError`);
errors inside `extract_symptom_details` are swallowed there. -/
def interactive_conversation (llm : Oracle) (s : PState) : Except PyErr PState :=
  match getKey s.messages "messages" with
  | Except.error e => Except.error e
  | Except.ok current_messages =>
    let question_count := s.question_count.getD 0
    let symptom_details :=
      updatedSymptomDetails llm current_messages (s.symptom_details.getD none)
    match conversationPrompt question_count current_messages with
    | Except.error e => Except.error e
    | Except.ok prompt =>
      match llm prompt with
      | Except.error e => Except.error (PyErr.llmError e)
      | Except.ok resp =>
        let new_stage := if enoughCond resp question_count then "research" else "conversation"
        Except.ok
          { messages := some (current_messages ++ [Msg.mk "assistant" resp]),
            question_count := some (question_count + 1),
            conversation_stage := some new_stage,
            symptom_details := some symptom_details }

/-- `wait_for_user_response(state)`: a no-op node returning the state. -/
def wait_for_user_response (s : PState) : Except PyErr PState := Except.ok s

/-- `perplexity_research(query)`: the transport round-trip, with
`requests.RequestException` caught and turned into an error string.  The
function never raises on a transport failure. -/
def perplexity_research (net : Oracle) (query : String) : String :=
  match net query with
  | Except.ok content => content
  | Except.error e => "Error researching topic: " ++ e

/-- `determine_research_needs(state)`: one research-client call over the
concatenated user messages and the cached extraction summary; the raw result
text (error text included) is stored under `research_results`. -/
def determine_research_needs (net : Oracle) (s : PState) : Except PyErr PState :=
  match getKey s.messages "messages" with
  | Except.error e => Except.error e
  | Except.ok messages =>
    let symptom_details := s.symptom_details.getD none
    let all_user_input := userContentsJoined "\n" messages
    let extracted_data := extractedOf symptom_details
    let results := perplexity_research net (researchPromptOf all_user_input extracted_data)
    Except.ok { research_results := some (some results) }

/-- `generate_analysis(state)`: one completion over user messages, extraction
summary and research text; stores the full text as the report and sets
`analysis_complete`. -/
def generate_analysis (llm : Oracle) (s : PState) : Except PyErr PState :=
  let research_data := (s.research_results.getD none).getD "No research data available"
  match getKey s.messages "messages" with
  | Except.error e => Except.error e
  | Except.ok messages =>
    let symptom_details := s.symptom_details.getD none
    let all_user_input := userContentsJoined "\n" messages
    let extracted_data := extractedOf symptom_details
    match llm (analysisPromptOf all_user_input extracted_data research_data) with
    | Except.error e => Except.error (PyErr.llmError e)
    | Except.ok analysis =>
      Except.ok { analysis_complete := some true, report := some (some analysis) }

/-- `final_response(state)`: append the report plus the completion marker as
the final assistant message and set the stage to `complete`.  Note the bare
dict accesses `state["messages"]` and `state["report"]`. -/
def final_response (s : PState) : Except PyErr PState :=
  let report_content := (s.report.getD none).getD ""
  let final_message := Msg.mk "assistant" (report_content ++ "\n\n[SYSTEM: ANALYSIS COMPLETE]")
  match getKey s.messages "messages" with
  | Except.error e => Except.error e
  | Except.ok msgs =>
    match getKey s.report "report" with
    | Except.error e => Except.error e
    | Except.ok report =>
      Except.ok
        { messages := some (msgs ++ [final_message]),
          conversation_stage := some "complete",
          analysis_complete := some true,
          risk := some (s.risk_assessment.getD "UNKNOWN"),
          report := some report }

/-- The four "new topic" phrases of `determine_next_stage`. -/
def newTopicHit (last_user_message : String) : Bool :=
  strHasSubstr "new symptom" last_user_message ||
  strHasSubstr "different issue" last_user_message ||
  strHasSubstr "another problem" last_user_message ||
  strHasSubstr "different question" last_user_message

/-- `determine_next_stage(state)`: the conditional-edge router.  The final
`complete`-stage branch of the source reads the local `last_user_message`
that is only assigned inside the earlier user-message branch; reaching it
with a non-user last message is an `UnboundLocalError`. -/
def determine_next_stage (s : PState) : Except PyErr String :=
  if s.analysis_complete.getD false then Except.ok "final_response"
  else
    let current_stage := s.conversation_stage.getD "conversation"
    match getKey s.messages "messages" with
    | Except.error e => Except.error e
    | Except.ok messages =>
      let lastIsUser :=
        match messages.getLast? with
        | some m => m.role == "user"
        | none => false
      if lastIsUser && (current_stage == "conversation") then Except.ok "continue_conversation"
      else if current_stage == "research" then Except.ok "start_research"
      else if (current_stage == "complete") && lastIsUser then
        match messages.getLast? with
        | some m =>
          if newTopicHit (strToLower m.content) then Except.ok "restart_conversation"
          else Except.ok "continue_conversation"
        | none => Except.ok "continue_conversation"
      else if current_stage == "complete" then
        Except.error (PyErr.unboundLocal "last_user_message")
      else Except.ok "wait_for_user"

/-- `reset_conversation(state)`: keep only a trailing user message, emit the
topic-change acknowledgement, zero the rest of the state. -/
def reset_conversation (s : PState) : Except PyErr PState :=
  match getKey s.messages "messages" with
  | Except.error e => Except.error e
  | Except.ok msgs =>
    let last_message : Option Msg :=
      match msgs.getLast? with
      | some m => if m.role == "user" then some m else none
      | none => none
    let acknowledgment := Msg.mk "assistant"
      "I understand you'd like to discuss a new medical topic. Let's start fresh with this new concern."
    let new_messages :=
      match last_message with
      | some m => [m, acknowledgment]
      | none => [acknowledgment]
    Except.ok
      { messages := some new_messages,
        research_results := some none,
        analysis_complete := some false,
        report := some none,
        conversation_stage := some "conversation",
        symptom_details := some none,
        question_count := some 0 }

/-! ## The compiled graph -/

/-- The nodes added by `graph_builder.add_node`. -/
inductive GNode where
  | ic | wait | research | analysis | final | reset
deriving DecidableEq

/-- Run one node body. -/
def execNode (llm net : Oracle) : GNode → PState → Except PyErr PState
  | GNode.ic, s => interactive_conversation llm s
  | GNode.wait, s => wait_for_user_response s
  | GNode.research, s => determine_research_needs net s
  | GNode.analysis, s => generate_analysis llm s
  | GNode.final, s => final_response s
  | GNode.reset, s => reset_conversation s

/-- Field-wise merge of a node's partial update into the state: a written key
overwrites, an unwritten key persists (LangGraph `TypedDict` channels without
reducers). -/
def mergeField (dv sv : Option α) : Option α :=
  match dv with
  | some v => some v
  | none => sv

/-- Merge a node update `d` into state `s`. -/
def merge (s d : PState) : PState :=
  { messages := mergeField d.messages s.messages,
    research_results := mergeField d.research_results s.research_results,
    analysis_complete := mergeField d.analysis_complete s.analysis_complete,
    report := mergeField d.report s.report,
    conversation_stage := mergeField d.conversation_stage s.conversation_stage,
    symptom_details := mergeField d.symptom_details s.symptom_details,
    question_count := mergeField d.question_count s.question_count,
    risk_assessment := mergeField d.risk_assessment s.risk_assessment,
    risk := mergeField d.risk s.risk }

/-- The path map of `add_conditional_edges("interactive_conversation", ...)`.
A router label that is not a key of the map is a runtime error in LangGraph
(`"final_response"` is such a label: it names a node but is not mapped). -/
def routeOf (label : String) : Except PyErr (Option GNode) :=
  match label with
  | "continue_conversation" => Except.ok (some GNode.ic)
  | "wait_for_user" => Except.ok (some GNode.wait)
  | "start_research" => Except.ok (some GNode.research)
  | "restart_conversation" => Except.ok (some GNode.reset)
  | "end" => Except.ok none
  | other => Except.error (PyErr.invalidRoute other)

/-- Successor of a node on the post-node state, following the declared edges:
conditional edges after `interactive_conversation`; `research → analysis`,
`analysis → final`, `final → END`, `reset → interactive_conversation`;
`wait_for_user` has no outgoing edge, so the run ends there. -/
def nextNode (s : PState) : GNode → Except PyErr (Option GNode)
  | GNode.ic =>
    (match determine_next_stage s with
     | Except.error e => Except.error e
     | Except.ok label => routeOf label)
  | GNode.wait => Except.ok none
  | GNode.research => Except.ok (some GNode.analysis)
  | GNode.analysis => Except.ok (some GNode.final)
  | GNode.final => Except.ok none
  | GNode.reset => Except.ok (some GNode.ic)

/-- Execute the graph from a node with a step budget (`recursion_limit`);
exhausting the budget is `GraphRecursionError`. -/
def runGraph (llm net : Oracle) : Nat → GNode → PState → Except PyErr PState
  | 0, _, _ => Except.error PyErr.graphRecursion
  | fuel + 1, node, s =>
    match execNode llm net node s with
    | Except.error e => Except.error e
    | Except.ok d =>
      let s' := merge s d
      match nextNode s' node with
      | Except.error e => Except.error e
      | Except.ok none => Except.ok s'
      | Except.ok (some n) => runGraph llm net fuel n s'

/-- `graph.invoke(state, {"recursion_limit": 8})`: the edge from `START`
enters `interactive_conversation`. -/
def graphInvoke (llm net : Oracle) (s : PState) : Except PyErr PState :=
  runGraph llm net 8 GNode.ic s

/-! ## Controller entry points -/

/-- The initial state built by `start_medical_chat`. -/
def initialState (initial_message : String) : PState :=
  { messages := some [Msg.mk "user" initial_message],
    research_results := some none,
    analysis_complete := some false,
    report := some none,
    conversation_stage := some "conversation",
    symptom_details := some none,
    question_count := some 0 }

/-- `handle_recursion_limit(state)`: force the analysis pipeline by calling
the node bodies directly — `generate_analysis`'s return value (a partial
update dict) is passed to `final_response` as if it were a full state. -/
def handle_recursion_limit (llm : Oracle) (state : PState) : Except PyErr PState :=
  let warning := Msg.mk "assistant" "[SYSTEM] Generating final analysis report..."
  match generate_analysis llm state with
  | Except.error e => Except.error e
  | Except.ok analyzed_state =>
    match final_response analyzed_state with
    | Except.error e => Except.error e
    | Except.ok reported_state =>
      match getKey state.messages "messages" with
      | Except.error e => Except.error e
      | Except.ok msgs =>
        match getKey reported_state.messages "messages" with
        | Except.error e => Except.error e
        | Except.ok rmsgs =>
          match rmsgs.getLast? with
          | none => Except.error PyErr.indexError
          | some lastMsg =>
            Except.ok { reported_state with messages := some (msgs ++ [warning, lastMsg]) }

/-- `start_medical_chat(initial_message)`. -/
def start_medical_chat (llm net : Oracle) (initial_message : String) : Except PyErr PState :=
  match graphInvoke llm net (initialState initial_message) with
  | Except.error PyErr.graphRecursion => handle_recursion_limit llm (initialState initial_message)
  | r => r

/-- The state update at the top of `continue_medical_chat`: append the new
user message. -/
def appendedState (current_state : PState) (current_messages : List Msg)
    (user_message : String) : PState :=
  { current_state with
    messages := some (current_messages ++ [Msg.mk "user" user_message]) }

/-- `continue_medical_chat(current_state, user_message)`. -/
def continue_medical_chat (llm net : Oracle) (current_state : PState)
    (user_message : String) : Except PyErr PState :=
  match getKey current_state.messages "messages" with
  | Except.error e => Except.error e
  | Except.ok current_messages =>
    let updated_state := appendedState current_state current_messages user_message
    match graphInvoke llm net updated_state with
    | Except.error PyErr.graphRecursion => handle_recursion_limit llm updated_state
    | r => r

/-- The value returned by `run_web_prompt` to the HTTP layer. -/
structure WebOut where
  messagesOut : String
  analysis_complete : Bool
deriving DecidableEq

/-- The tail of `run_web_prompt` after the session variable has been set:
on a completed stage, emit the final message plus the reset notification and
clear the session; otherwise return the last message with the session kept. -/
def webPost (s : PState) : Except PyErr (Option PState × WebOut) :=
  if s.conversation_stage == some "complete" then
    match getKey s.messages "messages" with
    | Except.error e => Except.error e
    | Except.ok msgs =>
      match msgs.getLast? with
      | none => Except.error PyErr.indexError
      | some m =>
        Except.ok (none,
          WebOut.mk (m.content ++ "\nAnalysis complete. Starting fresh conversation. Type your new symptoms or concerns.\n") true)
  else
    match getKey s.messages "messages" with
    | Except.error e => Except.error e
    | Except.ok msgs =>
      match msgs.getLast? with
      | none => Except.error PyErr.indexError
      | some m =>
        Except.ok (some s, WebOut.mk m.content (s.analysis_complete.getD false))

/-- `run_web_prompt(input)` over the global session: takes the current value
of the global `state` and returns its new value alongside the HTTP payload.
Note the branch order of the source: the no-session check comes first, so
with no session even the input `"exit"` starts a chat. -/
def run_web_prompt (llm net : Oracle) (state : Option PState) (input : String) :
    Except PyErr (Option PState × WebOut) :=
  match state with
  | none =>
    (match start_medical_chat llm net input with
     | Except.error e => Except.error e
     | Except.ok s => webPost s)
  | some st =>
    if strToLower input == "exit" then
      Except.ok (none, WebOut.mk "Chat session ended. You can start a new conversation." false)
    else
      match continue_medical_chat llm net st input with
      | Except.error e => Except.error e
      | Except.ok s => webPost s

/-- One HTTP turn as seen at the process level: when `run_web_prompt` raises,
the exception propagates and the global `state` keeps its previous value
(none of the source's assignments to it have happened). -/
def webTurn (llm net : Oracle) (state : Option PState) (input : String) :
    Option PState × Except PyErr WebOut :=
  match run_web_prompt llm net state input with
  | Except.ok (st', w) => (st', Except.ok w)
  | Except.error e => (state, Except.error e)

/-! ## `beautify_text` -/

/-- Python `\s` on the ASCII range (`re` whitespace; `str.strip` default). -/
def isPySpace (c : Char) : Bool :=
  c == ' ' || c == '\t' || c == '\n' || c == '\x0d' || c == '\x0b' || c == '\x0c'

/-- `re.sub(r'\*\*', '', text)`: drop non-overlapping `**` pairs,
left to right. -/
def sub2stars : List Char → List Char
  | '*' :: '*' :: rest => sub2stars rest
  | c :: rest => c :: sub2stars rest
  | [] => []

/-- Scanner for `re.sub(r'(\d+\.)', r'\n\1', text)`.  `ds` is the reversed
pending run of digits read so far.  A maximal digit run immediately followed
by a dot is the match `\d+\.` and gets a newline put in front of it; a digit
run followed by anything else admits no match at any of its positions (each
proper suffix of the run is followed by a digit or by the same non-dot), so
it is emitted unchanged. -/
def subNumAux : List Char → List Char → List Char
  | ds, [] => ds.reverse
  | ds, c :: rest =>
    if c.isDigit then subNumAux (c :: ds) rest
    else if ds.isEmpty then c :: subNumAux [] rest
    else if c == '.' then '\n' :: (ds.reverse ++ '.' :: subNumAux [] rest)
    else ds.reverse ++ c :: subNumAux [] rest

/-- `re.sub(r'(\d+\.)', r'\n\1', text)`. -/
def subNum (l : List Char) : List Char := subNumAux [] l

/-- Scanner for `re.sub(r'\n?\s*\*', '\n- ', text)`.  `ws` is the reversed
pending whitespace run.  Every `*`, together with the whitespace run
immediately before it, is a match (the leading `\n?` is subsumed by `\s*`,
and `\s*` may be empty, so every `*` is consumed by some match) and becomes
`"\n- "`; whitespace not followed by `*` is emitted unchanged. -/
def subStarAux : List Char → List Char → List Char
  | ws, [] => ws.reverse
  | ws, c :: rest =>
    if c == '*' then '\n' :: '-' :: ' ' :: subStarAux [] rest
    else if isPySpace c then subStarAux (c :: ws) rest
    else ws.reverse ++ c :: subStarAux [] rest

/-- `re.sub(r'\n?\s*\*', '\n- ', text)`. -/
def subStar (l : List Char) : List Char := subStarAux [] l

/-- Python `text.split("\n")`. -/
def splitLines : List Char → List (List Char)
  | [] => [[]]
  | c :: rest =>
    if c = '\n' then [] :: splitLines rest
    else
      match splitLines rest with
      | l :: ls => (c :: l) :: ls
      | [] => [[c]]

/-- Join with `"\n"` (Python `"\n".join`). -/
def joinLines : List (List Char) → List Char
  | [] => []
  | l :: ls =>
    match ls with
    | [] => l
    | _ :: _ => l ++ '\n' :: joinLines ls

/-- `beautify_text(text, width)`.  `textwrap.fill` is Python standard-library
code external to this repository and is passed in as the parameter `fill`
(`fill width line` for `textwrap.fill(line, width)`); a line that is all
whitespace (`line.strip()` falsy) is kept as is. -/
def beautify_text (fill : Nat → List Char → List Char) (text : String) (width : Nat) : String :=
  let t1 := sub2stars text.data
  let t2 := subNum t1
  let t3 := subStar t2
  let wrapped_lines := (splitLines t3).map (fun line =>
    if line.any (fun c => !(isPySpace c)) then fill width line else line)
  String.mk (joinLines wrapped_lines)

/-! ## Derived observers of one research pass

When a turn reaches the `research` stage, the message list at that point is
`ms ++ [assistant resp]` and the cached extraction is
`updatedSymptomDetails llm ms sd`; these observers name the research query,
its result and the analysis prompt of that pass. -/

/-- The user contents fed to research/analysis during a turn whose
conversation response was `resp`. -/
def turnUsers (ms : List Msg) (resp : String) : String :=
  userContentsJoined "\n" (ms ++ [Msg.mk "assistant" resp])

/-- The `extracted_data` value fed to research/analysis during a turn. -/
def turnExtract (llm : Oracle) (ms : List Msg) (sd : Option (String × Nat)) : String :=
  extractedOf (updatedSymptomDetails llm ms sd)

/-- The research text stored by `determine_research_needs` during a turn. -/
def turnResearch (llm net : Oracle) (ms : List Msg) (resp : String)
    (sd : Option (String × Nat)) : String :=
  perplexity_research net (researchPromptOf (turnUsers ms resp) (turnExtract llm ms sd))

/-- The prompt `generate_analysis` sends during a turn. -/
def turnAnalysisPrompt (llm net : Oracle) (ms : List Msg) (resp : String)
    (sd : Option (String × Nat)) : String :=
  analysisPromptOf (turnUsers ms resp) (turnExtract llm ms sd)
    (turnResearch llm net ms resp sd)

/-- Whether an embedded call returned normally (no Python exception). -/
def isOkE (r : Except PyErr PState) : Bool :=
  match r with
  | Except.ok _ => true
  | Except.error _ => false

/-! ## Reachable session states -/

/-- The invariant of committed session states: all seven keys set by
`start_medical_chat` are present, the history ends with an assistant
message, and the stage/`analysis_complete` pair is either
(`conversation`, `false`) or (`complete`, `true`). -/
def InvP (s : PState) : Prop :=
  (∃ ms : List Msg, s.messages = some ms ∧
    (∃ lm : Msg, ms.getLast? = some lm ∧ lm.role = "assistant")) ∧
  (∃ qc : Nat, s.question_count = some qc) ∧
  (∃ sd : Option (String × Nat), s.symptom_details = some sd) ∧
  (∃ rr : Option String, s.research_results = some rr) ∧
  (∃ rp : Option String, s.report = some rp) ∧
  ((s.conversation_stage = some "conversation" ∧ s.analysis_complete = some false) ∨
   (s.conversation_stage = some "complete" ∧ s.analysis_complete = some true))

/-- Session states observable between turns: produced by a committed
(non-raising) `start_medical_chat` or by a committed `continue_medical_chat`
from an earlier such state (this covers both `run_command_line` and
`run_web_prompt`; a turn that raises leaves the stored session unchanged).
The external clients may behave differently on every turn. -/
inductive Reach : PState → Prop where
  | start (llm net : Oracle) (msg : String) (s : PState) :
      start_medical_chat llm net msg = Except.ok s → Reach s
  | step (llm net : Oracle) (s : PState) (msg : String) (s' : PState) :
      Reach s → continue_medical_chat llm net s msg = Except.ok s' → Reach s'

/-! ## Concrete oracles used in witnesses and counterexamples -/

/-- A completion client that always asks a follow-up question. -/
def llmK : Oracle := fun _ => Except.ok "Could you describe the pain further?"

/-- A research transport that always succeeds. -/
def netK : Oracle := fun _ => Except.ok "research data"

/-- A completion client that immediately signals readiness (and returns the
same text for the analysis prompt). -/
def llmE : Oracle := fun _ =>
  Except.ok "I have enough information to analyze your symptoms now."

/-- A research transport that always fails with a transport error. -/
def netE : Oracle := fun _ => Except.error "Connection refused"

/-- A completion client that raises exactly on the symptom-extraction prompt
(recognised by its unique leading text) and answers everything else. -/
def llmX : Oracle := fun p =>
  if startsWithL "\n    Based on the following user messages".data p.data
  then Except.error "boom" else Except.ok "Could you describe the pain?"

/-- A completion client whose replies never contain a readiness signal nor
any risk label. -/
def llmO : Oracle := fun _ => Except.ok "noted"

/-- A completion client that raises on every prompt. -/
def llmF : Oracle := fun _ => Except.error "down"

/-! # Lemmas -/

theorem mergeField_self (x : Option α) : mergeField x x = x := by
  cases x <;> rfl

theorem merge_self (s : PState) : merge s s = s := by
  cases s
  simp only [merge, mergeField_self]

theorem runGraph_step (llm net : Oracle) (fuel : Nat) (node : GNode) (s : PState) :
    runGraph llm net (fuel + 1) node s =
      (match execNode llm net node s with
       | Except.error e => Except.error e
       | Except.ok d =>
         match nextNode (merge s d) node with
         | Except.error e => Except.error e
         | Except.ok none => Except.ok (merge s d)
         | Except.ok (some n) => runGraph llm net fuel n (merge s d)) := rfl

theorem ic_char (llm : Oracle) (ms : List Msg) (rr : Option (Option String))
    (ac : Option Bool) (rp : Option (Option String)) (cst : Option String)
    (sd : Option (String × Nat)) (qc : Nat) (ra rk : Option String)
    (p : String) (hp : conversationPrompt qc ms = Except.ok p) :
    interactive_conversation llm ⟨some ms, rr, ac, rp, cst, some sd, some qc, ra, rk⟩ =
      (match llm p with
       | Except.error e => Except.error (PyErr.llmError e)
       | Except.ok resp =>
         Except.ok ⟨some (ms ++ [Msg.mk "assistant" resp]), none, none, none,
           some (if enoughCond resp qc then "research" else "conversation"),
           some (updatedSymptomDetails llm ms sd), some (qc + 1), none, none⟩) := by
  unfold interactive_conversation
  simp only [getKey, Option.getD, hp]

theorem invoke_wait (llm net : Oracle) (ms : List Msg) (rr rp : Option (Option String))
    (cst : Option String) (sd : Option (String × Nat)) (qc : Nat) (ra rk : Option String)
    (p resp : String)
    (hp : conversationPrompt qc ms = Except.ok p) (hr : llm p = Except.ok resp)
    (hc : enoughCond resp qc = false) :
    graphInvoke llm net ⟨some ms, rr, some false, rp, cst, some sd, some qc, ra, rk⟩ =
      Except.ok ⟨some (ms ++ [Msg.mk "assistant" resp]), rr, some false, rp,
        some "conversation", some (updatedSymptomDetails llm ms sd), some (qc + 1), ra, rk⟩ := by
  have h1 := ic_char llm ms rr (some false) rp cst sd qc ra rk p hp
  simp only [hr, hc, Bool.false_eq_true, if_false] at h1
  unfold graphInvoke
  rw [show (8 : Nat) = 7 + 1 from rfl, runGraph_step]
  simp only [execNode, h1, merge, mergeField]
  have h2 : determine_next_stage ⟨some (ms ++ [Msg.mk "assistant" resp]), rr, some false, rp,
      some "conversation", some (updatedSymptomDetails llm ms sd), some (qc + 1), ra, rk⟩ =
      Except.ok "wait_for_user" := by
    simp [determine_next_stage, getKey, List.getLast?_concat]
  simp only [nextNode, h2, routeOf]
  rw [show (7 : Nat) = 6 + 1 from rfl, runGraph_step]
  simp only [execNode, wait_for_user_response, nextNode, merge_self]

theorem invoke_llm_err (llm net : Oracle) (ms : List Msg) (rr rp : Option (Option String))
    (ac : Option Bool) (cst : Option String) (sd : Option (String × Nat)) (qc : Nat)
    (ra rk : Option String) (p e : String)
    (hp : conversationPrompt qc ms = Except.ok p) (hr : llm p = Except.error e) :
    graphInvoke llm net ⟨some ms, rr, ac, rp, cst, some sd, some qc, ra, rk⟩ =
      Except.error (PyErr.llmError e) := by
  have h1 := ic_char llm ms rr ac rp cst sd qc ra rk p hp
  simp only [hr] at h1
  unfold graphInvoke
  rw [show (8 : Nat) = 7 + 1 from rfl, runGraph_step]
  simp only [execNode, h1]

theorem invoke_prompt_err (llm net : Oracle) (ms : List Msg) (rr rp : Option (Option String))
    (ac : Option Bool) (cst : Option String) (sd : Option (String × Nat)) (qc : Nat)
    (ra rk : Option String) (e : PyErr)
    (hp : conversationPrompt qc ms = Except.error e) :
    graphInvoke llm net ⟨some ms, rr, ac, rp, cst, some sd, some qc, ra, rk⟩ =
      Except.error e := by
  unfold graphInvoke
  rw [show (8 : Nat) = 7 + 1 from rfl, runGraph_step]
  have h1 : interactive_conversation llm ⟨some ms, rr, ac, rp, cst, some sd, some qc, ra, rk⟩ =
      Except.error e := by
    unfold interactive_conversation
    simp only [getKey, Option.getD, hp]
  simp only [execNode, h1]

theorem invoke_acTrue (llm net : Oracle) (ms : List Msg) (rr rp : Option (Option String))
    (cst : Option String) (sd : Option (String × Nat)) (qc : Nat)
    (ra rk : Option String) (p resp : String)
    (hp : conversationPrompt qc ms = Except.ok p) (hr : llm p = Except.ok resp) :
    graphInvoke llm net ⟨some ms, rr, some true, rp, cst, some sd, some qc, ra, rk⟩ =
      Except.error (PyErr.invalidRoute "final_response") := by
  have h1 := ic_char llm ms rr (some true) rp cst sd qc ra rk p hp
  simp only [hr] at h1
  unfold graphInvoke
  rw [show (8 : Nat) = 7 + 1 from rfl, runGraph_step]
  simp only [execNode, h1, merge, mergeField]
  have h2 : determine_next_stage ⟨some (ms ++ [Msg.mk "assistant" resp]), rr, some true, rp,
      some (if enoughCond resp qc then "research" else "conversation"),
      some (updatedSymptomDetails llm ms sd), some (qc + 1), ra, rk⟩ =
      Except.ok "final_response" := by
    simp [determine_next_stage]
  simp only [nextNode, h2]
  rfl

theorem invoke_research (llm net : Oracle) (ms : List Msg) (rr rp : Option (Option String))
    (cst : Option String) (sd : Option (String × Nat)) (qc : Nat) (ra rk : Option String)
    (p resp a : String)
    (hp : conversationPrompt qc ms = Except.ok p) (hr : llm p = Except.ok resp)
    (hc : enoughCond resp qc = true)
    (ha : llm (turnAnalysisPrompt llm net ms resp sd) = Except.ok a) :
    graphInvoke llm net ⟨some ms, rr, some false, rp, cst, some sd, some qc, ra, rk⟩ =
      Except.ok ⟨some ((ms ++ [Msg.mk "assistant" resp]) ++
          [Msg.mk "assistant" (a ++ "\n\n[SYSTEM: ANALYSIS COMPLETE]")]),
        some (some (turnResearch llm net ms resp sd)), some true, some (some a),
        some "complete", some (updatedSymptomDetails llm ms sd), some (qc + 1),
        ra, some (ra.getD "UNKNOWN")⟩ := by
  have h1 := ic_char llm ms rr (some false) rp cst sd qc ra rk p hp
  simp only [hr, hc, if_true] at h1
  unfold graphInvoke
  rw [show (8 : Nat) = 7 + 1 from rfl, runGraph_step]
  simp only [execNode, h1, merge, mergeField]
  have h2 : determine_next_stage ⟨some (ms ++ [Msg.mk "assistant" resp]), rr, some false, rp,
      some "research", some (updatedSymptomDetails llm ms sd), some (qc + 1), ra, rk⟩ =
      Except.ok "start_research" := by
    simp [determine_next_stage, getKey, List.getLast?_concat]
  simp only [nextNode, h2, routeOf]
  rw [show (7 : Nat) = 6 + 1 from rfl, runGraph_step]
  have h3 : determine_research_needs net ⟨some (ms ++ [Msg.mk "assistant" resp]), rr, some false, rp,
      some "research", some (updatedSymptomDetails llm ms sd), some (qc + 1), ra, rk⟩ =
      Except.ok ⟨none, some (some (turnResearch llm net ms resp sd)), none, none, none, none, none, none, none⟩ := by
    simp only [determine_research_needs, getKey, Option.getD, turnResearch, turnUsers, turnExtract]
  simp only [execNode, h3, merge, mergeField, nextNode]
  rw [show (6 : Nat) = 5 + 1 from rfl, runGraph_step]
  have h4 : generate_analysis llm ⟨some (ms ++ [Msg.mk "assistant" resp]),
      some (some (turnResearch llm net ms resp sd)), some false, rp,
      some "research", some (updatedSymptomDetails llm ms sd), some (qc + 1), ra, rk⟩ =
      Except.ok ⟨none, none, some true, some (some a), none, none, none, none, none⟩ := by
    simp only [generate_analysis, getKey, Option.getD]
    rw [show analysisPromptOf (userContentsJoined "\n" (ms ++ [Msg.mk "assistant" resp]))
        (extractedOf (updatedSymptomDetails llm ms sd)) (turnResearch llm net ms resp sd) =
        turnAnalysisPrompt llm net ms resp sd from rfl]
    simp only [ha]
  simp only [execNode, h4, merge, mergeField, nextNode]
  rw [show (5 : Nat) = 4 + 1 from rfl, runGraph_step]
  have h5 : final_response ⟨some (ms ++ [Msg.mk "assistant" resp]),
      some (some (turnResearch llm net ms resp sd)), some true, some (some a),
      some "research", some (updatedSymptomDetails llm ms sd), some (qc + 1), ra, rk⟩ =
      Except.ok ⟨some ((ms ++ [Msg.mk "assistant" resp]) ++
          [Msg.mk "assistant" (a ++ "\n\n[SYSTEM: ANALYSIS COMPLETE]")]),
        none, some true, some (some a), some "complete", none, none, none,
        some (ra.getD "UNKNOWN")⟩ := by
    simp only [final_response, getKey, Option.getD]
  simp only [execNode, h5, merge, mergeField, nextNode]

theorem invoke_analysis_err (llm net : Oracle) (ms : List Msg) (rr rp : Option (Option String))
    (cst : Option String) (sd : Option (String × Nat)) (qc : Nat) (ra rk : Option String)
    (p resp e : String)
    (hp : conversationPrompt qc ms = Except.ok p) (hr : llm p = Except.ok resp)
    (hc : enoughCond resp qc = true)
    (ha : llm (turnAnalysisPrompt llm net ms resp sd) = Except.error e) :
    graphInvoke llm net ⟨some ms, rr, some false, rp, cst, some sd, some qc, ra, rk⟩ =
      Except.error (PyErr.llmError e) := by
  have h1 := ic_char llm ms rr (some false) rp cst sd qc ra rk p hp
  simp only [hr, hc, if_true] at h1
  unfold graphInvoke
  rw [show (8 : Nat) = 7 + 1 from rfl, runGraph_step]
  simp only [execNode, h1, merge, mergeField]
  have h2 : determine_next_stage ⟨some (ms ++ [Msg.mk "assistant" resp]), rr, some false, rp,
      some "research", some (updatedSymptomDetails llm ms sd), some (qc + 1), ra, rk⟩ =
      Except.ok "start_research" := by
    simp [determine_next_stage, getKey, List.getLast?_concat]
  simp only [nextNode, h2, routeOf]
  rw [show (7 : Nat) = 6 + 1 from rfl, runGraph_step]
  have h3 : determine_research_needs net ⟨some (ms ++ [Msg.mk "assistant" resp]), rr, some false, rp,
      some "research", some (updatedSymptomDetails llm ms sd), some (qc + 1), ra, rk⟩ =
      Except.ok ⟨none, some (some (turnResearch llm net ms resp sd)), none, none, none, none, none, none, none⟩ := by
    simp only [determine_research_needs, getKey, Option.getD, turnResearch, turnUsers, turnExtract]
  simp only [execNode, h3, merge, mergeField, nextNode]
  rw [show (6 : Nat) = 5 + 1 from rfl, runGraph_step]
  have h4 : generate_analysis llm ⟨some (ms ++ [Msg.mk "assistant" resp]),
      some (some (turnResearch llm net ms resp sd)), some false, rp,
      some "research", some (updatedSymptomDetails llm ms sd), some (qc + 1), ra, rk⟩ =
      Except.error (PyErr.llmError e) := by
    simp only [generate_analysis, getKey, Option.getD]
    rw [show analysisPromptOf (userContentsJoined "\n" (ms ++ [Msg.mk "assistant" resp]))
        (extractedOf (updatedSymptomDetails llm ms sd)) (turnResearch llm net ms resp sd) =
        turnAnalysisPrompt llm net ms resp sd from rfl]
    simp only [ha]
  simp only [execNode, h4]

theorem conversationPrompt_concat (qc : Nat) (l : List Msg) (u : Msg) :
    conversationPrompt qc (l ++ [u]) =
      Except.ok (if qc == 0 then firstQuestionPrompt u.content
        else followupPrompt (format_conversation_history (l ++ [u]))) := by
  unfold conversationPrompt
  cases h : (qc == 0) with
  | true => simp [List.getLast?_concat]
  | false => simp [h]

theorem generate_analysis_ok_shape (llm : Oracle) (s : PState) (d : PState)
    (h : generate_analysis llm s = Except.ok d) : d.messages = none := by
  unfold generate_analysis at h
  cases hm : s.messages with
  | none => rw [hm] at h; exact absurd h (by simp [getKey])
  | some msgs =>
    rw [hm] at h
    simp only [getKey] at h
    cases hl : llm (analysisPromptOf (userContentsJoined "\n" msgs)
        (extractedOf (s.symptom_details.getD none))
        ((s.research_results.getD none).getD "No research data available")) with
    | error e => rw [hl] at h; exact absurd h (by simp)
    | ok a =>
      rw [hl] at h
      simp only [Except.ok.injEq] at h
      rw [← h]

theorem handle_never_ok (llm : Oracle) (s : PState) :
    isOkE (handle_recursion_limit llm s) = false := by
  unfold handle_recursion_limit
  split
  · rfl
  · rename_i d hg
    have hm : d.messages = none := generate_analysis_ok_shape llm s d hg
    have hf : final_response d = Except.error (PyErr.keyError "messages") := by
      unfold final_response
      rw [hm]
      rfl
    rw [hf]
    rfl

theorem continue_char (llm net : Oracle) (s : PState) (ms : List Msg) (msg : String)
    (hm : s.messages = some ms) :
    continue_medical_chat llm net s msg =
      (match graphInvoke llm net (appendedState s ms msg) with
       | Except.error PyErr.graphRecursion => handle_recursion_limit llm (appendedState s ms msg)
       | r => r) := by
  unfold continue_medical_chat
  rw [hm]
  rfl

theorem continue_not_ok_of_invoke_err (llm net : Oracle) (s : PState) (ms : List Msg)
    (msg : String) (e : PyErr) (hm : s.messages = some ms)
    (he : graphInvoke llm net (appendedState s ms msg) = Except.error e) :
    isOkE (continue_medical_chat llm net s msg) = false := by
  rw [continue_char llm net s ms msg hm, he]
  cases e with
  | graphRecursion => exact handle_never_ok llm _
  | keyError k => rfl
  | indexError => rfl
  | llmError m => rfl
  | unboundLocal n => rfl
  | invalidRoute l => rfl

theorem start_of_invoke_ok (llm net : Oracle) (m : String) (t : PState)
    (h : graphInvoke llm net (initialState m) = Except.ok t) :
    start_medical_chat llm net m = Except.ok t := by
  unfold start_medical_chat
  rw [h]

theorem start_not_ok_of_invoke_err (llm net : Oracle) (m : String) (e : PyErr)
    (he : graphInvoke llm net (initialState m) = Except.error e) :
    isOkE (start_medical_chat llm net m) = false := by
  unfold start_medical_chat
  rw [he]
  cases e with
  | graphRecursion => exact handle_never_ok llm _
  | keyError k => rfl
  | indexError => rfl
  | llmError m2 => rfl
  | unboundLocal n => rfl
  | invalidRoute l => rfl

theorem continue_of_invoke_ok (llm net : Oracle) (s : PState) (ms : List Msg)
    (msg : String) (t : PState) (hm : s.messages = some ms)
    (h : graphInvoke llm net (appendedState s ms msg) = Except.ok t) :
    continue_medical_chat llm net s msg = Except.ok t := by
  rw [continue_char llm net s ms msg hm, h]

theorem inv_start (llm net : Oracle) (msg : String) (s : PState)
    (hs : start_medical_chat llm net msg = Except.ok s) : InvP s := by
  have hp : conversationPrompt 0 [Msg.mk "user" msg] =
      Except.ok (firstQuestionPrompt msg) := rfl
  cases hr : llm (firstQuestionPrompt msg) with
  | error e =>
    have hne := start_not_ok_of_invoke_err llm net msg (PyErr.llmError e)
      (invoke_llm_err llm net [Msg.mk "user" msg] (some none) (some none) (some false)
        (some "conversation") none 0 none none (firstQuestionPrompt msg) e hp hr)
    rw [hs] at hne
    simp [isOkE] at hne
  | ok resp =>
    cases hcnd : enoughCond resp 0 with
    | false =>
      have hcc := start_of_invoke_ok llm net msg _
        (invoke_wait llm net [Msg.mk "user" msg] (some none) (some none) (some "conversation")
          none 0 none none (firstQuestionPrompt msg) resp hp hr hcnd)
      rw [hs] at hcc
      injection hcc with h3
      subst h3
      exact ⟨⟨_, rfl, Msg.mk "assistant" resp, List.getLast?_concat _, rfl⟩,
        ⟨_, rfl⟩, ⟨_, rfl⟩, ⟨_, rfl⟩, ⟨_, rfl⟩, Or.inl ⟨rfl, rfl⟩⟩
    | true =>
      cases ha : llm (turnAnalysisPrompt llm net [Msg.mk "user" msg] resp none) with
      | error e =>
        have hne := start_not_ok_of_invoke_err llm net msg (PyErr.llmError e)
          (invoke_analysis_err llm net [Msg.mk "user" msg] (some none) (some none)
            (some "conversation") none 0 none none (firstQuestionPrompt msg) resp e hp hr hcnd ha)
        rw [hs] at hne
        simp [isOkE] at hne
      | ok a =>
        have hcc := start_of_invoke_ok llm net msg _
          (invoke_research llm net [Msg.mk "user" msg] (some none) (some none)
            (some "conversation") none 0 none none (firstQuestionPrompt msg) resp a hp hr hcnd ha)
        rw [hs] at hcc
        injection hcc with h3
        subst h3
        exact ⟨⟨_, rfl, Msg.mk "assistant" (a ++ "\n\n[SYSTEM: ANALYSIS COMPLETE]"),
            List.getLast?_concat _, rfl⟩,
          ⟨_, rfl⟩, ⟨_, rfl⟩, ⟨_, rfl⟩, ⟨_, rfl⟩, Or.inr ⟨rfl, rfl⟩⟩

theorem inv_step (llm net : Oracle) (s : PState) (msg : String) (s' : PState)
    (ih : InvP s) (hc : continue_medical_chat llm net s msg = Except.ok s') : InvP s' := by
  obtain ⟨f1, f2, f3, f4, f5, f6, f7, f8, f9⟩ := s
  obtain ⟨⟨ms, hm, lm, hlm, hrole⟩, ⟨qc, hq⟩, ⟨sd, hsd⟩, ⟨rr, hrr⟩, ⟨rp, hrp⟩, hdisj⟩ := ih
  subst hm hq hsd hrr hrp
  have hp := conversationPrompt_concat qc ms (Msg.mk "user" msg)
  rcases hdisj with ⟨hst, hac⟩ | ⟨hst, hac⟩
  · subst hst
    subst hac
    cases hr : llm (if (qc == 0) then firstQuestionPrompt (Msg.mk "user" msg).content
        else followupPrompt (format_conversation_history (ms ++ [Msg.mk "user" msg]))) with
    | error e =>
      have hne := continue_not_ok_of_invoke_err llm net (⟨some ms, some rr, some false, some rp, some "conversation", some sd, some qc, f8, f9⟩ : PState) ms msg (PyErr.llmError e) rfl
        (invoke_llm_err llm net (ms ++ [Msg.mk "user" msg]) (some rr) (some rp) (some false)
          (some "conversation") sd qc f8 f9 _ e hp hr)
      rw [hc] at hne
      simp [isOkE] at hne
    | ok resp =>
      cases hcnd : enoughCond resp qc with
      | false =>
        have hcc := continue_of_invoke_ok llm net (⟨some ms, some rr, some false, some rp, some "conversation", some sd, some qc, f8, f9⟩ : PState) ms msg _ rfl
          (invoke_wait llm net (ms ++ [Msg.mk "user" msg]) (some rr) (some rp)
            (some "conversation") sd qc f8 f9 _ resp hp hr hcnd)
        rw [hc] at hcc
        injection hcc with h3
        subst h3
        exact ⟨⟨_, rfl, Msg.mk "assistant" resp, List.getLast?_concat _, rfl⟩,
          ⟨_, rfl⟩, ⟨_, rfl⟩, ⟨_, rfl⟩, ⟨_, rfl⟩, Or.inl ⟨rfl, rfl⟩⟩
      | true =>
        cases ha : llm (turnAnalysisPrompt llm net (ms ++ [Msg.mk "user" msg]) resp sd) with
        | error e =>
          have hne := continue_not_ok_of_invoke_err llm net (⟨some ms, some rr, some false, some rp, some "conversation", some sd, some qc, f8, f9⟩ : PState) ms msg (PyErr.llmError e) rfl
            (invoke_analysis_err llm net (ms ++ [Msg.mk "user" msg]) (some rr) (some rp)
              (some "conversation") sd qc f8 f9 _ resp e hp hr hcnd ha)
          rw [hc] at hne
          simp [isOkE] at hne
        | ok a =>
          have hcc := continue_of_invoke_ok llm net (⟨some ms, some rr, some false, some rp, some "conversation", some sd, some qc, f8, f9⟩ : PState) ms msg _ rfl
            (invoke_research llm net (ms ++ [Msg.mk "user" msg]) (some rr) (some rp)
              (some "conversation") sd qc f8 f9 _ resp a hp hr hcnd ha)
          rw [hc] at hcc
          injection hcc with h3
          subst h3
          exact ⟨⟨_, rfl, Msg.mk "assistant" (a ++ "\n\n[SYSTEM: ANALYSIS COMPLETE]"),
              List.getLast?_concat _, rfl⟩,
            ⟨_, rfl⟩, ⟨_, rfl⟩, ⟨_, rfl⟩, ⟨_, rfl⟩, Or.inr ⟨rfl, rfl⟩⟩
  · subst hst
    subst hac
    cases hr : llm (if (qc == 0) then firstQuestionPrompt (Msg.mk "user" msg).content
        else followupPrompt (format_conversation_history (ms ++ [Msg.mk "user" msg]))) with
    | error e =>
      have hne := continue_not_ok_of_invoke_err llm net (⟨some ms, some rr, some true, some rp, some "complete", some sd, some qc, f8, f9⟩ : PState) ms msg (PyErr.llmError e) rfl
        (invoke_llm_err llm net (ms ++ [Msg.mk "user" msg]) (some rr) (some rp) (some true)
          (some "complete") sd qc f8 f9 _ e hp hr)
      rw [hc] at hne
      simp [isOkE] at hne
    | ok resp =>
      have hne := continue_not_ok_of_invoke_err llm net (⟨some ms, some rr, some true, some rp, some "complete", some sd, some qc, f8, f9⟩ : PState) ms msg
        (PyErr.invalidRoute "final_response") rfl
        (invoke_acTrue llm net (ms ++ [Msg.mk "user" msg]) (some rr) (some rp)
          (some "complete") sd qc f8 f9 _ resp hp hr)
      rw [hc] at hne
      simp [isOkE] at hne

theorem reach_inv (s : PState) (h : Reach s) : InvP s := by
  induction h with
  | start llm net msg s hs => exact inv_start llm net msg s hs
  | step llm net s msg s' hR hcont ih => exact inv_step llm net s msg s' ih hcont

theorem drn_qc_none (net : Oracle) (s d : PState)
    (h : determine_research_needs net s = Except.ok d) : d.question_count = none := by
  unfold determine_research_needs at h
  cases hm : s.messages with
  | none => rw [hm] at h; exact absurd h (by simp [getKey])
  | some msgs =>
    rw [hm] at h
    simp only [getKey, Except.ok.injEq] at h
    rw [← h]

theorem ga_qc_none (llm : Oracle) (s d : PState)
    (h : generate_analysis llm s = Except.ok d) : d.question_count = none := by
  unfold generate_analysis at h
  cases hm : s.messages with
  | none => rw [hm] at h; exact absurd h (by simp [getKey])
  | some msgs =>
    rw [hm] at h
    simp only [getKey] at h
    cases hl : llm (analysisPromptOf (userContentsJoined "\n" msgs)
        (extractedOf (s.symptom_details.getD none))
        ((s.research_results.getD none).getD "No research data available")) with
    | error e => rw [hl] at h; exact absurd h (by simp)
    | ok a =>
      rw [hl] at h
      simp only [Except.ok.injEq] at h
      rw [← h]

theorem fr_qc_none (s d : PState)
    (h : final_response s = Except.ok d) : d.question_count = none := by
  unfold final_response at h
  cases hm : s.messages with
  | none => rw [hm] at h; exact absurd h (by simp [getKey])
  | some msgs =>
    rw [hm] at h
    cases hr : s.report with
    | none => rw [hr] at h; exact absurd h (by simp [getKey])
    | some rp =>
      rw [hr] at h
      simp only [getKey, Except.ok.injEq] at h
      rw [← h]

theorem reset_qc_zero (s d : PState)
    (h : reset_conversation s = Except.ok d) : d.question_count = some 0 := by
  unfold reset_conversation at h
  cases hm : s.messages with
  | none => rw [hm] at h; exact absurd h (by simp [getKey])
  | some msgs =>
    rw [hm] at h
    simp only [getKey, Except.ok.injEq] at h
    rw [← h]

theorem continue_err_of_invoke_nonrec (llm net : Oracle) (s : PState) (ms : List Msg)
    (msg : String) (e : PyErr) (hm : s.messages = some ms)
    (hne : e ≠ PyErr.graphRecursion)
    (he : graphInvoke llm net (appendedState s ms msg) = Except.error e) :
    continue_medical_chat llm net s msg = Except.error e := by
  rw [continue_char llm net s ms msg hm, he]
  cases e with
  | graphRecursion => exact absurd rfl hne
  | keyError k => rfl
  | indexError => rfl
  | llmError m => rfl
  | unboundLocal n => rfl
  | invalidRoute l => rfl

theorem startsWithL_self_append (p t : List Char) : startsWithL p (p ++ t) = true := by
  induction p with
  | nil => rfl
  | cons c cs ih => simp [startsWithL, ih]

theorem hasSubstrL_nil_pat (l : List Char) : hasSubstrL [] l = true := by
  cases l <;> simp [hasSubstrL, startsWithL]

theorem hasSubstrL_mid (pat x y : List Char) :
    hasSubstrL pat (x ++ (pat ++ y)) = true := by
  induction x with
  | nil =>
    cases hp : pat with
    | nil => simp [hp, hasSubstrL_nil_pat]
    | cons p ps =>
      simp only [List.nil_append]
      rw [← hp]
      cases hq : pat ++ y with
      | nil =>
        rcases List.append_eq_nil.mp hq with ⟨h1, h2⟩
        rw [h1] at hp
        exact absurd hp (by simp)
      | cons c cs =>
        simp only [hasSubstrL]
        rw [← hq, startsWithL_self_append]
        simp
  | cons c cs ih =>
    simp only [List.cons_append, hasSubstrL, List.append_eq, ih, Bool.or_true]

theorem strHasSubstr_mid (pat x y : String) :
    strHasSubstr pat (x ++ (pat ++ y)) = true := by
  unfold strHasSubstr
  rw [String.data_append, String.data_append]
  exact hasSubstrL_mid pat.data x.data y.data

theorem subStarAux_no_star (l : List Char) : ∀ (ws : List Char),
    (∀ c ∈ ws, c ≠ '*') → ∀ c ∈ subStarAux ws l, c ≠ '*' := by
  induction l with
  | nil =>
    intro ws hws c hc
    rw [subStarAux] at hc
    exact hws c (List.mem_reverse.mp hc)
  | cons a rest ih =>
    intro ws hws c hc
    rw [subStarAux] at hc
    by_cases ha : (a == '*') = true
    · rw [if_pos ha] at hc
      rcases List.mem_cons.mp hc with rfl | hc2
      · decide
      rcases List.mem_cons.mp hc2 with rfl | hc3
      · decide
      rcases List.mem_cons.mp hc3 with rfl | hc4
      · decide
      exact ih [] (by simp) c hc4
    · rw [if_neg ha] at hc
      by_cases hsp : isPySpace a = true
      · rw [if_pos hsp] at hc
        refine ih (a :: ws) ?_ c hc
        intro d hd
        rcases List.mem_cons.mp hd with rfl | hd2
        · simpa using ha
        exact hws d hd2
      · rw [if_neg hsp] at hc
        rcases List.mem_append.mp hc with hc1 | hc2
        · exact hws c (List.mem_reverse.mp hc1)
        rcases List.mem_cons.mp hc2 with rfl | hc3
        · simpa using ha
        exact ih [] (by simp) c hc3

theorem subStar_no_star (l : List Char) : ∀ c ∈ subStar l, c ≠ '*' :=
  subStarAux_no_star l [] (by simp)

theorem splitLines_mem (l : List Char) : ∀ p ∈ splitLines l, ∀ c ∈ p, c ∈ l := by
  induction l with
  | nil =>
    intro p hp c hc
    rw [splitLines] at hp
    simp only [List.mem_singleton] at hp
    subst hp
    simp at hc
  | cons a rest ih =>
    intro p hp c hc
    rw [splitLines] at hp
    by_cases ha : a = '\n'
    · rw [if_pos ha] at hp
      rcases List.mem_cons.mp hp with rfl | hp2
      · simp at hc
      exact List.mem_cons_of_mem a (ih p hp2 c hc)
    · rw [if_neg ha] at hp
      cases hs : splitLines rest with
      | nil =>
        rw [hs] at hp
        simp only [List.mem_singleton] at hp
        subst hp
        rcases List.mem_cons.mp hc with rfl | hc2
        · exact List.mem_cons_self _ _
        · simp at hc2
      | cons l0 ls =>
        rw [hs] at hp
        rcases List.mem_cons.mp hp with rfl | hp2
        · rcases List.mem_cons.mp hc with rfl | hc2
          · exact List.mem_cons_self _ _
          · exact List.mem_cons_of_mem a (ih l0 (hs ▸ List.mem_cons_self l0 ls) c hc2)
        · exact List.mem_cons_of_mem a
            (ih p (hs ▸ List.mem_cons_of_mem l0 hp2) c hc)

theorem joinLines_mem (ls : List (List Char)) : ∀ c ∈ joinLines ls,
    c = '\n' ∨ ∃ p ∈ ls, c ∈ p := by
  induction ls with
  | nil =>
    intro c hc
    simp [joinLines] at hc
  | cons l rest ih =>
    intro c hc
    cases rest with
    | nil =>
      right
      exact ⟨l, List.mem_cons_self l [], hc⟩
    | cons l2 rest2 =>
      have hc' : c ∈ l ++ '\n' :: joinLines (l2 :: rest2) := hc
      rcases List.mem_append.mp hc' with hc1 | hc2
      · exact Or.inr ⟨l, List.mem_cons_self _ _, hc1⟩
      rcases List.mem_cons.mp hc2 with rfl | hc3
      · exact Or.inl rfl
      rcases ih c hc3 with h | ⟨p, hp, hcp⟩
      · exact Or.inl h
      · exact Or.inr ⟨p, List.mem_cons_of_mem l hp, hcp⟩

theorem no_star_no_2stars (l : List Char) (h : ∀ c ∈ l, c ≠ '*') :
    hasSubstrL ['*', '*'] l = false := by
  induction l with
  | nil => rfl
  | cons c cs ih =>
    rw [hasSubstrL]
    have hc : c ≠ '*' := h c (List.mem_cons_self c cs)
    have h1 : ('*' == c) = false := by
      cases hb : ('*' == c)
      · rfl
      · exact absurd (beq_iff_eq.mp hb).symm hc
    simp only [startsWithL, h1, Bool.false_and, Bool.false_or]
    exact ih (fun d hd => h d (List.mem_cons_of_mem c hd))

/-! # Claims -/

/-- Claim C10: for every input string, `beautify_text` returns a string that
contains no occurrence of the substring `**`.  After the third substitution
step no `*` characters remain at all (every `*` is consumed by a
`\n?\s*\*` match), splitting and joining only move characters and add
newlines, and `textwrap.fill` (external standard-library code, abstracted as
the `fill` parameter) only rearranges the characters of its whitespace-split
input, so it introduces no `*` — the hypothesis states exactly that
contract. -/
theorem claim_C10 (fill : Nat → List Char → List Char) (text : String) (width : Nat)
    (hfill : ∀ (w : Nat) (line : List Char), (∀ c ∈ line, c ≠ '*') →
      ∀ c ∈ fill w line, c ≠ '*') :
    strHasSubstr "**" (beautify_text fill text width) = false := by
  unfold beautify_text
  have hstar3 : ∀ c ∈ subStar (subNum (sub2stars text.data)), c ≠ '*' :=
    subStar_no_star _
  have hlines : ∀ p ∈ (splitLines (subStar (subNum (sub2stars text.data)))).map
      (fun line => if line.any (fun c => !(isPySpace c)) then fill width line else line),
      ∀ c ∈ p, c ≠ '*' := by
    intro p hp c hc
    rcases List.mem_map.mp hp with ⟨line, hline, rfl⟩
    have hlstar : ∀ d ∈ line, d ≠ '*' :=
      fun d hd => hstar3 d (splitLines_mem _ line hline d hd)
    by_cases hb : line.any (fun c => !(isPySpace c)) = true
    · rw [if_pos hb] at hc
      exact hfill width line hlstar c hc
    · rw [if_neg hb] at hc
      exact hlstar c hc
  have hall : ∀ c ∈ joinLines ((splitLines (subStar (subNum (sub2stars text.data)))).map
      (fun line => if line.any (fun c => !(isPySpace c)) then fill width line else line)),
      c ≠ '*' := by
    intro c hc
    rcases joinLines_mem _ c hc with rfl | ⟨p, hp, hcp⟩
    · decide
    · exact hlines p hp c hcp
  exact no_star_no_2stars _ hall

/-- Witness for C10 at a concrete input, with `fill` instantiated by the
identity wrapper (which satisfies the star-free contract). -/
theorem claim_C10_witness :
    strHasSubstr "**" (beautify_text (fun _ line => line) "**Bold* text\n1. item" 80) = false :=
  claim_C10 (fun _ line => line) "**Bold* text\n1. item" 80 (fun _ _ h c hc => h c hc)

/-- Claim C7 (code bug): `handle_recursion_limit` is claimed to force
`generate_analysis` then `final_response` and return a completed state with
a warning message.  In fact it passes `generate_analysis`'s return value — a
partial update dict holding only `analysis_complete` and `report` — to
`final_response` as if it were a full state, whose `state["messages"]`
access then raises `KeyError: 'messages'`.  The function never returns
normally: for every completion client and every state it raises; at the
concrete failing input (the fresh state for "I have chest pain", with a
client that answers) the raised error is exactly `KeyError: 'messages'`. -/
theorem claim_C7 :
    (∀ (llm : Oracle) (s : PState), isOkE (handle_recursion_limit llm s) = false) ∧
    handle_recursion_limit llmK (initialState "I have chest pain") =
      Except.error (PyErr.keyError "messages") :=
  ⟨fun llm s => handle_never_ok llm s, rfl⟩

/-- Claim C8 (code bug): from a completed session, the user message
"new symptom: headache" does match the new-topic phrase list, but the turn
never reaches `reset_conversation`: the graph enters
`interactive_conversation` first, which overwrites the stage, and
`determine_next_stage` then returns `"final_response"` (because
`analysis_complete` is true), a label that is not a key of the
conditional-edge map — the turn raises instead of resetting. -/
theorem claim_C8 :
    (start_medical_chat llmE netK "I have chest pain").map
        (fun s => (s.conversation_stage, s.analysis_complete, s.question_count)) =
      Except.ok (some "complete", some true, some 1) ∧
    newTopicHit (strToLower "new symptom: headache") = true ∧
    (start_medical_chat llmE netK "I have chest pain").bind
        (fun sc => continue_medical_chat llmE netK sc "new symptom: headache") =
      Except.error (PyErr.invalidRoute "final_response") :=
  ⟨rfl, rfl, rfl⟩

/-- Counterexample to C3 as stated: with no session, `run_web_prompt`
checks `if not state:` before the exit check, so the input `"exit"` starts a
brand-new chat (a session is created and the reply is not a termination
acknowledgement). -/
theorem claim_C3_cex :
    (run_web_prompt llmK netK none "exit").map
        (fun r => (r.1.isSome, r.2.analysis_complete)) =
      Except.ok (true, false) := rfl

/-- Counterexample to C4 as stated: after four conversation turns in which
the model never says "enough information" (it always answers "noted"), the
fifth call does chain to a completed report in one turn — but the report is
just the model's analysis output, and nothing in the code puts a LOW/MEDIUM/
HIGH label into it: here the completed report is "noted" and contains no
label from the set. -/
theorem claim_C4_cex :
    ((((start_medical_chat llmO netK "I have chest pain").bind
        (fun s => continue_medical_chat llmO netK s "it aches")).bind
        (fun s => continue_medical_chat llmO netK s "since monday")).bind
        (fun s => continue_medical_chat llmO netK s "no fever")).map
      (fun s => (s.conversation_stage, s.question_count)) =
      Except.ok (some "conversation", some 4) ∧
    (((((start_medical_chat llmO netK "I have chest pain").bind
        (fun s => continue_medical_chat llmO netK s "it aches")).bind
        (fun s => continue_medical_chat llmO netK s "since monday")).bind
        (fun s => continue_medical_chat llmO netK s "no fever")).bind
        (fun s => continue_medical_chat llmO netK s "what now")).map
      (fun s => (s.conversation_stage, s.report,
        strHasSubstr "LOW" ((s.report.getD none).getD "") ||
        strHasSubstr "MEDIUM" ((s.report.getD none).getD "") ||
        strHasSubstr "HIGH" ((s.report.getD none).getD ""))) =
      Except.ok (some "complete", some (some "noted"), false) :=
  ⟨rfl, rfl⟩

/-- Counterexample to C5 as stated: on a transport failure the error text
is stored in `research_results` and the turn completes, but the *report* is
the completion client's output, not the error text — here the completed
report does not contain the error text. -/
theorem claim_C5_cex :
    (start_medical_chat llmE netE "I have chest pain").map
      (fun s => (s.research_results, s.report,
        strHasSubstr "Error researching topic" ((s.report.getD none).getD ""))) =
      Except.ok (some (some "Error researching topic: Connection refused"),
        some (some "I have enough information to analyze your symptoms now."), false) := rfl

/-- Counterexample to C6 as stated: `llmX` raises exactly on the
symptom-extraction prompt; the error does not propagate — the turn completes
normally, with the placeholder text stored in `symptom_details` (proof that
the failing extraction call did run). -/
theorem claim_C6_cex :
    (start_medical_chat llmX netK "I have chest pain").map
      (fun s => (s.symptom_details, s.conversation_stage)) =
      Except.ok (some (some ("Error processing symptoms", 1)), some "conversation") := rfl

/-- Claim C2: a (successful) invocation of the conversation handler appends
exactly one assistant message, increments `question_count` by exactly 1, and
sets the next stage to `research` iff the returned text contains
"enough information" (case-insensitively, via `enoughCond`) or
`question_count` was already ≥ 4 before the increment — the update record
shows the appended single message, the incremented count and the stage
`if enoughCond ... then "research" else "conversation"`.  The remaining
conjuncts cover the monotonicity side: the research/analysis/final nodes
never write `question_count` (their update records carry `none` there, so
the merge keeps the old value), the wait node returns the state unchanged,
and only `reset_conversation` writes it, setting it to 0. -/
theorem claim_C2 (llm net llm2 : Oracle) (s s2 s3 s4 s5 s6 : PState)
    (d2 d3 d4 d5 : PState) (ms : List Msg) (qc : Nat) (p resp : String)
    (hm : s.messages = some ms) (hq : s.question_count = some qc)
    (hp : conversationPrompt qc ms = Except.ok p) (hr : llm p = Except.ok resp)
    (h2 : determine_research_needs net s2 = Except.ok d2)
    (h3 : generate_analysis llm2 s3 = Except.ok d3)
    (h4 : final_response s4 = Except.ok d4)
    (h5 : reset_conversation s5 = Except.ok d5) :
    interactive_conversation llm s =
      Except.ok ⟨some (ms ++ [Msg.mk "assistant" resp]), none, none, none,
        some (if enoughCond resp qc then "research" else "conversation"),
        some (updatedSymptomDetails llm ms (s.symptom_details.getD none)), some (qc + 1),
        none, none⟩ ∧
    (enoughCond resp qc = true ↔
      (strHasSubstr "enough information" (strToLower resp) = true ∨ 4 ≤ qc)) ∧
    d2.question_count = none ∧ d3.question_count = none ∧ d4.question_count = none ∧
    wait_for_user_response s6 = Except.ok s6 ∧
    d5.question_count = some 0 := by
  refine ⟨?_, ?_, drn_qc_none net s2 d2 h2, ga_qc_none llm2 s3 d3 h3,
    fr_qc_none s4 d4 h4, rfl, reset_qc_zero s5 d5 h5⟩
  · unfold interactive_conversation
    rw [hm]
    simp only [getKey, hq, Option.getD_some, hp, hr]
  · simp [enoughCond, Bool.or_eq_true, decide_eq_true_iff]

/-- Witness for C2 at concrete inputs (fresh state for "hi", the concrete
node outputs discharged by `rfl`). -/
theorem claim_C2_witness :
    interactive_conversation llmK (initialState "hi") =
      Except.ok ⟨some ([Msg.mk "user" "hi"] ++
          [Msg.mk "assistant" "Could you describe the pain further?"]),
        none, none, none,
        some (if enoughCond "Could you describe the pain further?" 0
          then "research" else "conversation"),
        some (updatedSymptomDetails llmK [Msg.mk "user" "hi"]
          ((initialState "hi").symptom_details.getD none)), some (0 + 1),
        none, none⟩ ∧
    (enoughCond "Could you describe the pain further?" 0 = true ↔
      (strHasSubstr "enough information"
        (strToLower "Could you describe the pain further?") = true ∨ 4 ≤ 0)) ∧
    (⟨none, some (some "research data"), none, none, none, none, none, none, none⟩ :
      PState).question_count = none ∧
    (⟨none, none, some true, some (some "Could you describe the pain further?"),
      none, none, none, none, none⟩ : PState).question_count = none ∧
    (⟨some ([Msg.mk "user" "hi"] ++
        [Msg.mk "assistant" "\n\n[SYSTEM: ANALYSIS COMPLETE]"]),
      none, some true, some none, some "complete", none, none, none,
      some "UNKNOWN"⟩ : PState).question_count = none ∧
    wait_for_user_response (initialState "hi") = Except.ok (initialState "hi") ∧
    (⟨some [Msg.mk "user" "hi", Msg.mk "assistant"
        "I understand you'd like to discuss a new medical topic. Let's start fresh with this new concern."],
      some none, some false, some none, some "conversation", some none, some 0,
      none, none⟩ : PState).question_count = some 0 :=
  claim_C2 llmK netK llmK (initialState "hi") (initialState "hi") (initialState "hi")
    (initialState "hi") (initialState "hi") (initialState "hi")
    (⟨none, some (some "research data"), none, none, none, none, none, none, none⟩ : PState)
    (⟨none, none, some true, some (some "Could you describe the pain further?"),
      none, none, none, none, none⟩ : PState)
    (⟨some ([Msg.mk "user" "hi"] ++
        [Msg.mk "assistant" "\n\n[SYSTEM: ANALYSIS COMPLETE]"]),
      none, some true, some none, some "complete", none, none, none,
      some "UNKNOWN"⟩ : PState)
    (⟨some [Msg.mk "user" "hi", Msg.mk "assistant"
        "I understand you'd like to discuss a new medical topic. Let's start fresh with this new concern."],
      some none, some false, some none, some "conversation", some none, some 0,
      none, none⟩ : PState)
    [Msg.mk "user" "hi"] 0 (firstQuestionPrompt "hi")
    "Could you describe the pain further?" rfl rfl rfl rfl rfl rfl rfl rfl

/-- Claim C3, amended: when a session exists, the case-insensitive sentinel
"exit" clears the session and returns the termination acknowledgement
without running any handler; the next non-exit input then goes through
`start_medical_chat`, whose fresh state carries `question_count = 0` — so it
starts a brand-new session.  (The part of the original claim about "exit"
with *no* session is false — see the counterexample: the no-session check
precedes the exit check, so "exit" then starts a chat.) -/
theorem claim_C3 (llm net : Oracle) (s s2 : PState) (inp m : String)
    (ms2 : List Msg) (lm2 : Msg)
    (hex : (strToLower inp == "exit") = true)
    (h1 : start_medical_chat llm net m = Except.ok s2)
    (h2 : s2.conversation_stage = some "conversation")
    (hm2 : s2.messages = some ms2) (hl2 : ms2.getLast? = some lm2) :
    run_web_prompt llm net (some s) inp =
      Except.ok (none,
        WebOut.mk "Chat session ended. You can start a new conversation." false) ∧
    run_web_prompt llm net none m =
      Except.ok (some s2, WebOut.mk lm2.content (s2.analysis_complete.getD false)) ∧
    (initialState m).question_count = some 0 := by
  refine ⟨?_, ?_, rfl⟩
  · show (if strToLower inp == "exit" then
        Except.ok (none, WebOut.mk "Chat session ended. You can start a new conversation." false)
      else
        match continue_medical_chat llm net s inp with
        | Except.error e => Except.error e
        | Except.ok s0 => webPost s0) = _
    rw [hex]
    rfl
  · have hb : (s2.conversation_stage == some "complete") = false := by
      rw [h2]
      rfl
    show (match start_medical_chat llm net m with
      | Except.error e => Except.error e
      | Except.ok s0 => webPost s0) = _
    rw [h1]
    show webPost s2 = _
    unfold webPost
    rw [hb]
    simp only [Bool.false_eq_true, if_false]
    rw [hm2]
    simp only [getKey]
    rw [hl2]

/-- Witness for C3, amended: "EXIT" clears a live session; a fresh
"I have chest pain" then starts a brand-new session. -/
theorem claim_C3_witness :
    run_web_prompt llmK netK (some (initialState "x")) "EXIT" =
      Except.ok (none,
        WebOut.mk "Chat session ended. You can start a new conversation." false) ∧
    run_web_prompt llmK netK none "I have chest pain" =
      Except.ok (some ⟨some [Msg.mk "user" "I have chest pain",
          Msg.mk "assistant" "Could you describe the pain further?"],
        some none, some false, some none, some "conversation",
        some (some ("Could you describe the pain further?", 1)), some 1, none, none⟩,
        WebOut.mk (Msg.mk "assistant" "Could you describe the pain further?").content
          ((⟨some [Msg.mk "user" "I have chest pain",
            Msg.mk "assistant" "Could you describe the pain further?"],
          some none, some false, some none, some "conversation",
          some (some ("Could you describe the pain further?", 1)), some 1, none, none⟩ :
            PState).analysis_complete.getD false)) ∧
    (initialState "I have chest pain").question_count = some 0 :=
  claim_C3 llmK netK (initialState "x")
    (⟨some [Msg.mk "user" "I have chest pain",
        Msg.mk "assistant" "Could you describe the pain further?"],
      some none, some false, some none, some "conversation",
      some (some ("Could you describe the pain further?", 1)), some 1, none, none⟩ : PState)
    "EXIT" "I have chest pain"
    [Msg.mk "user" "I have chest pain",
      Msg.mk "assistant" "Could you describe the pain further?"]
    (Msg.mk "assistant" "Could you describe the pain further?")
    rfl rfl rfl rfl rfl

/-- Claim C4, amended: from a conversation-stage session whose
`question_count` is already ≥ 4, the next call chains in one turn through
`determine_research_needs` (its stored result is `turnResearch ...`), then
`generate_analysis` (the report is the completion text `a`), then
`final_response` (stage `complete`, marker appended) — no user input between
the three steps.  The prompt asks for a LOW/MEDIUM/HIGH risk label, but the
report is whatever the completion client returns; it contains a label only
if that text does (see the counterexample for the original claim). -/
theorem claim_C4 (llm net : Oracle) (s : PState) (msg : String) (ms : List Msg)
    (qc : Nat) (sd : Option (String × Nat)) (rr rp : Option String) (resp a : String)
    (hm : s.messages = some ms) (hq : s.question_count = some qc) (hq4 : 4 ≤ qc)
    (hsd : s.symptom_details = some sd) (hrr : s.research_results = some rr)
    (hrp : s.report = some rp) (hst : s.conversation_stage = some "conversation")
    (hac : s.analysis_complete = some false)
    (hr : llm (followupPrompt (format_conversation_history (ms ++ [Msg.mk "user" msg]))) =
      Except.ok resp)
    (ha : llm (turnAnalysisPrompt llm net (ms ++ [Msg.mk "user" msg]) resp sd) =
      Except.ok a) :
    continue_medical_chat llm net s msg =
      Except.ok ⟨some (((ms ++ [Msg.mk "user" msg]) ++ [Msg.mk "assistant" resp]) ++
          [Msg.mk "assistant" (a ++ "\n\n[SYSTEM: ANALYSIS COMPLETE]")]),
        some (some (turnResearch llm net (ms ++ [Msg.mk "user" msg]) resp sd)),
        some true, some (some a), some "complete",
        some (updatedSymptomDetails llm (ms ++ [Msg.mk "user" msg]) sd), some (qc + 1),
        s.risk_assessment, some (s.risk_assessment.getD "UNKNOWN")⟩ := by
  obtain ⟨f1, f2, f3, f4, f5, f6, f7, f8, f9⟩ := s
  subst hm hq hsd hrr hrp hst hac
  have hcnd : enoughCond resp qc = true := by
    simp [enoughCond, hq4]
  have hqz : (qc == 0) = false := by
    simp only [beq_eq_false_iff_ne, ne_eq]
    omega
  have hp := conversationPrompt_concat qc ms (Msg.mk "user" msg)
  rw [hqz] at hp
  simp only [Bool.false_eq_true, if_false] at hp
  exact continue_of_invoke_ok llm net
    (⟨some ms, some rr, some false, some rp, some "conversation", some sd, some qc, f8, f9⟩ :
      PState) ms msg _ rfl
    (invoke_research llm net (ms ++ [Msg.mk "user" msg]) (some rr) (some rp)
      (some "conversation") sd qc f8 f9 _ resp a hp hr hcnd ha)

/-- Witness for C4, amended, at a concrete session with `question_count = 4`. -/
theorem claim_C4_witness :
    continue_medical_chat llmO netK
      (⟨some [Msg.mk "user" "hi", Msg.mk "assistant" "noted"], some none, some false,
        some none, some "conversation", some none, some 4, none, none⟩ : PState) "go" =
      Except.ok ⟨some ((([Msg.mk "user" "hi", Msg.mk "assistant" "noted"] ++
            [Msg.mk "user" "go"]) ++ [Msg.mk "assistant" "noted"]) ++
          [Msg.mk "assistant" ("noted" ++ "\n\n[SYSTEM: ANALYSIS COMPLETE]")]),
        some (some (turnResearch llmO netK ([Msg.mk "user" "hi", Msg.mk "assistant" "noted"] ++
          [Msg.mk "user" "go"]) "noted" none)),
        some true, some (some "noted"), some "complete",
        some (updatedSymptomDetails llmO ([Msg.mk "user" "hi", Msg.mk "assistant" "noted"] ++
          [Msg.mk "user" "go"]) none), some (4 + 1),
        (⟨some [Msg.mk "user" "hi", Msg.mk "assistant" "noted"], some none, some false,
          some none, some "conversation", some none, some 4, none, none⟩ :
            PState).risk_assessment,
        some ((⟨some [Msg.mk "user" "hi", Msg.mk "assistant" "noted"], some none, some false,
          some none, some "conversation", some none, some 4, none, none⟩ :
            PState).risk_assessment.getD "UNKNOWN")⟩ :=
  claim_C4 llmO netK
    (⟨some [Msg.mk "user" "hi", Msg.mk "assistant" "noted"], some none, some false,
      some none, some "conversation", some none, some 4, none, none⟩ : PState)
    "go" [Msg.mk "user" "hi", Msg.mk "assistant" "noted"] 4 none none none
    "noted" "noted" rfl rfl (by decide) rfl rfl rfl rfl rfl rfl rfl

/-- Claim C5, amended: `perplexity_research` never raises on a transport
failure — it returns the text `"Error researching topic: " ++ e` — the turn
still completes, that literal error text is stored in `research_results`,
and it is incorporated verbatim into the *analysis prompt* from which the
report is generated (treated as legitimate research content); the report
itself is the completion client's output and contains the error text only
if that output does (see the counterexample for the original claim). -/
theorem claim_C5 (llm net : Oracle) (s : PState) (msg q e : String) (ms : List Msg)
    (qc : Nat) (sd : Option (String × Nat)) (rr rp : Option String) (p resp a : String)
    (hnet1 : net q = Except.error e)
    (hm : s.messages = some ms) (hq : s.question_count = some qc)
    (hsd : s.symptom_details = some sd) (hrr : s.research_results = some rr)
    (hrp : s.report = some rp) (hst : s.conversation_stage = some "conversation")
    (hac : s.analysis_complete = some false)
    (hp : conversationPrompt qc (ms ++ [Msg.mk "user" msg]) = Except.ok p)
    (hr : llm p = Except.ok resp)
    (hcnd : enoughCond resp qc = true)
    (hnet2 : net (researchPromptOf (turnUsers (ms ++ [Msg.mk "user" msg]) resp)
      (turnExtract llm (ms ++ [Msg.mk "user" msg]) sd)) = Except.error e)
    (ha : llm (turnAnalysisPrompt llm net (ms ++ [Msg.mk "user" msg]) resp sd) =
      Except.ok a) :
    perplexity_research net q = "Error researching topic: " ++ e ∧
    turnResearch llm net (ms ++ [Msg.mk "user" msg]) resp sd =
      "Error researching topic: " ++ e ∧
    continue_medical_chat llm net s msg =
      Except.ok ⟨some (((ms ++ [Msg.mk "user" msg]) ++ [Msg.mk "assistant" resp]) ++
          [Msg.mk "assistant" (a ++ "\n\n[SYSTEM: ANALYSIS COMPLETE]")]),
        some (some ("Error researching topic: " ++ e)),
        some true, some (some a), some "complete",
        some (updatedSymptomDetails llm (ms ++ [Msg.mk "user" msg]) sd), some (qc + 1),
        s.risk_assessment, some (s.risk_assessment.getD "UNKNOWN")⟩ ∧
    strHasSubstr ("Error researching topic: " ++ e)
      (turnAnalysisPrompt llm net (ms ++ [Msg.mk "user" msg]) resp sd) = true := by
  have h1 : perplexity_research net q = "Error researching topic: " ++ e := by
    unfold perplexity_research
    rw [hnet1]
  have h2 : turnResearch llm net (ms ++ [Msg.mk "user" msg]) resp sd =
      "Error researching topic: " ++ e := by
    unfold turnResearch perplexity_research
    rw [hnet2]
  refine ⟨h1, h2, ?_, ?_⟩
  · obtain ⟨f1, f2, f3, f4, f5, f6, f7, f8, f9⟩ := s
    subst hm hq hsd hrr hrp hst hac
    have h3 := continue_of_invoke_ok llm net
      (⟨some ms, some rr, some false, some rp, some "conversation", some sd, some qc, f8, f9⟩ :
        PState) ms msg _ rfl
      (invoke_research llm net (ms ++ [Msg.mk "user" msg]) (some rr) (some rp)
        (some "conversation") sd qc f8 f9 _ resp a hp hr hcnd ha)
    rw [h2] at h3
    exact h3
  · unfold turnAnalysisPrompt analysisPromptOf
    rw [h2]
    exact strHasSubstr_mid _ _ _

/-- Witness for C5, amended, with the always-failing transport `netE` and
the readiness-signalling client `llmE`. -/
theorem claim_C5_witness :
    perplexity_research netE "q" = "Error researching topic: " ++ "Connection refused" ∧
    turnResearch llmE netE ([Msg.mk "user" "hi", Msg.mk "assistant" "ok"] ++
        [Msg.mk "user" "go"])
      "I have enough information to analyze your symptoms now." none =
      "Error researching topic: " ++ "Connection refused" ∧
    continue_medical_chat llmE netE
      (⟨some [Msg.mk "user" "hi", Msg.mk "assistant" "ok"], some none, some false,
        some none, some "conversation", some none, some 1, none, none⟩ : PState) "go" =
      Except.ok ⟨some ((([Msg.mk "user" "hi", Msg.mk "assistant" "ok"] ++
            [Msg.mk "user" "go"]) ++
          [Msg.mk "assistant" "I have enough information to analyze your symptoms now."]) ++
          [Msg.mk "assistant" ("I have enough information to analyze your symptoms now." ++
            "\n\n[SYSTEM: ANALYSIS COMPLETE]")]),
        some (some ("Error researching topic: " ++ "Connection refused")),
        some true,
        some (some "I have enough information to analyze your symptoms now."),
        some "complete",
        some (updatedSymptomDetails llmE ([Msg.mk "user" "hi", Msg.mk "assistant" "ok"] ++
          [Msg.mk "user" "go"]) none), some (1 + 1),
        (⟨some [Msg.mk "user" "hi", Msg.mk "assistant" "ok"], some none, some false,
          some none, some "conversation", some none, some 1, none, none⟩ :
            PState).risk_assessment,
        some ((⟨some [Msg.mk "user" "hi", Msg.mk "assistant" "ok"], some none, some false,
          some none, some "conversation", some none, some 1, none, none⟩ :
            PState).risk_assessment.getD "UNKNOWN")⟩ ∧
    strHasSubstr ("Error researching topic: " ++ "Connection refused")
      (turnAnalysisPrompt llmE netE ([Msg.mk "user" "hi", Msg.mk "assistant" "ok"] ++
        [Msg.mk "user" "go"])
        "I have enough information to analyze your symptoms now." none) = true :=
  claim_C5 llmE netE
    (⟨some [Msg.mk "user" "hi", Msg.mk "assistant" "ok"], some none, some false,
      some none, some "conversation", some none, some 1, none, none⟩ : PState)
    "go" "q" "Connection refused" [Msg.mk "user" "hi", Msg.mk "assistant" "ok"] 1 none
    none none
    (followupPrompt (format_conversation_history
      ([Msg.mk "user" "hi", Msg.mk "assistant" "ok"] ++ [Msg.mk "user" "go"])))
    "I have enough information to analyze your symptoms now."
    "I have enough information to analyze your symptoms now."
    rfl rfl rfl rfl rfl rfl rfl rfl rfl rfl (by decide) rfl rfl

/-- Claim C6, amended: an error from the Completion Client during the
conversation question propagates out of the turn (`llmError`), and the
stored session keeps its exact pre-call value (`webTurn` returns the old
session with the error), so the turn can be retried — but *not every* error
propagates: an error raised during symptom extraction is caught inside
`extract_symptom_details` and replaced by the `"Error processing symptoms"`
placeholder, and the turn proceeds (see the counterexample for the original
claim). -/
theorem claim_C6 (llm net : Oracle) (msgs : List Msg) (e0 : String)
    (hx : llm (extractPromptOf (userContentsJoined " " msgs)) = Except.error e0)
    (s : PState) (msg : String) (ms : List Msg) (qc : Nat)
    (sd : Option (String × Nat)) (p e : String)
    (hm : s.messages = some ms) (hq : s.question_count = some qc)
    (hsd : s.symptom_details = some sd)
    (hp : conversationPrompt qc (ms ++ [Msg.mk "user" msg]) = Except.ok p)
    (hr : llm p = Except.error e)
    (hex : (strToLower msg == "exit") = false) :
    extract_symptom_details llm msgs = ("Error processing symptoms", msgs.length) ∧
    continue_medical_chat llm net s msg = Except.error (PyErr.llmError e) ∧
    webTurn llm net (some s) msg = (some s, Except.error (PyErr.llmError e)) := by
  have h1 : extract_symptom_details llm msgs = ("Error processing symptoms", msgs.length) := by
    simp only [extract_symptom_details, hx]
  obtain ⟨f1, f2, f3, f4, f5, f6, f7, f8, f9⟩ := s
  subst hm hq hsd
  have h2 : continue_medical_chat llm net
      (⟨some ms, f2, f3, f4, f5, some sd, some qc, f8, f9⟩ : PState) msg =
      Except.error (PyErr.llmError e) :=
    continue_err_of_invoke_nonrec llm net
      (⟨some ms, f2, f3, f4, f5, some sd, some qc, f8, f9⟩ : PState) ms msg
      (PyErr.llmError e) rfl (by intro h; exact PyErr.noConfusion h)
      (invoke_llm_err llm net (ms ++ [Msg.mk "user" msg]) f2 f4 f3 f5 sd qc f8 f9 p e hp hr)
  refine ⟨h1, h2, ?_⟩
  unfold webTurn run_web_prompt
  rw [hex]
  simp only [Bool.false_eq_true, if_false]
  rw [h2]

/-- Witness for C6, amended, with the always-raising client `llmF`. -/
theorem claim_C6_witness :
    extract_symptom_details llmF [Msg.mk "user" "hi"] =
      ("Error processing symptoms", [Msg.mk "user" "hi"].length) ∧
    continue_medical_chat llmF netK (initialState "hi") "more" =
      Except.error (PyErr.llmError "down") ∧
    webTurn llmF netK (some (initialState "hi")) "more" =
      (some (initialState "hi"), Except.error (PyErr.llmError "down")) :=
  claim_C6 llmF netK [Msg.mk "user" "hi"] "down" rfl (initialState "hi") "more"
    [Msg.mk "user" "hi"] 0 none (firstQuestionPrompt "more") "down"
    rfl rfl rfl rfl rfl rfl

/-- Claim C1: stage transitions along committed executions stay inside
`conversation → research → complete` (plus self-loops), and `complete →
conversation` is the only other transition the code even routes toward —
formalised here as: (a) every committed turn starts from a reachable session
whose stage is `conversation` (turns from a `complete` session always raise
— the router label `"final_response"` is unmapped — so they never commit a
transition out of `complete`); (b) the conversation handler's only stage
write from such a state is `conversation` or `research`; (c) the committed
post-turn stage is `conversation` exactly when the readiness test fails and
`complete` (written by `final_response` at the end of the transient
`research` pass) exactly when it holds.  Start turns begin from the fresh
state, whose stage is `conversation` by construction
(`initialState`), and commit through the same two paths.  Hence no other
stage transition is reachable under any sequence of user inputs. -/
theorem claim_C1 (llm net : Oracle) (s s' : PState) (msg : String)
    (ms : List Msg) (qc : Nat) (sd : Option (String × Nat)) (resp : String)
    (hR : Reach s)
    (hm : s.messages = some ms) (hq : s.question_count = some qc)
    (hsd : s.symptom_details = some sd)
    (hr : llm (if (qc == 0) then firstQuestionPrompt (Msg.mk "user" msg).content
      else followupPrompt (format_conversation_history (ms ++ [Msg.mk "user" msg]))) =
      Except.ok resp)
    (hcont : continue_medical_chat llm net s msg = Except.ok s') :
    (s.conversation_stage = some "conversation" ∧ s.analysis_complete = some false) ∧
    (interactive_conversation llm (appendedState s ms msg)).map PState.conversation_stage =
      Except.ok (some (if enoughCond resp qc then "research" else "conversation")) ∧
    s'.conversation_stage = some (if enoughCond resp qc then "complete" else "conversation") ∧
    s'.analysis_complete = some (enoughCond resp qc) := by
  have hinv := reach_inv s hR
  obtain ⟨f1, f2, f3, f4, f5, f6, f7, f8, f9⟩ := s
  subst hm hq hsd
  obtain ⟨⟨ms2, hm2, lm, hlm, hrole⟩, ⟨qc2, hq2⟩, ⟨sd2, hsd2⟩, ⟨rr, hrr⟩, ⟨rp, hrp⟩, hdisj⟩ := hinv
  subst hrr hrp
  have hp := conversationPrompt_concat qc ms (Msg.mk "user" msg)
  rcases hdisj with ⟨hst, hac⟩ | ⟨hst, hac⟩
  · subst hst
    subst hac
    refine ⟨⟨rfl, rfl⟩, ?_, ?_⟩
    · have happ : appendedState
          (⟨some ms, some rr, some false, some rp, some "conversation", some sd, some qc,
            f8, f9⟩ : PState) ms msg =
          (⟨some (ms ++ [Msg.mk "user" msg]), some rr, some false, some rp,
            some "conversation", some sd, some qc, f8, f9⟩ : PState) := rfl
      rw [happ]
      rw [ic_char llm (ms ++ [Msg.mk "user" msg]) (some rr) (some false) (some rp)
        (some "conversation") sd qc f8 f9 _ hp]
      rw [hr]
      rfl
    · cases hcnd : enoughCond resp qc with
      | false =>
        have hcc := continue_of_invoke_ok llm net
          (⟨some ms, some rr, some false, some rp, some "conversation", some sd, some qc,
            f8, f9⟩ : PState) ms msg _ rfl
          (invoke_wait llm net (ms ++ [Msg.mk "user" msg]) (some rr) (some rp)
            (some "conversation") sd qc f8 f9 _ resp hp hr hcnd)
        rw [hcont] at hcc
        injection hcc with h3
        subst h3
        exact ⟨rfl, rfl⟩
      | true =>
        cases ha : llm (turnAnalysisPrompt llm net (ms ++ [Msg.mk "user" msg]) resp sd) with
        | error e =>
          have hne := continue_not_ok_of_invoke_err llm net
            (⟨some ms, some rr, some false, some rp, some "conversation", some sd, some qc,
              f8, f9⟩ : PState) ms msg (PyErr.llmError e) rfl
            (invoke_analysis_err llm net (ms ++ [Msg.mk "user" msg]) (some rr) (some rp)
              (some "conversation") sd qc f8 f9 _ resp e hp hr hcnd ha)
          rw [hcont] at hne
          simp [isOkE] at hne
        | ok a =>
          have hcc := continue_of_invoke_ok llm net
            (⟨some ms, some rr, some false, some rp, some "conversation", some sd, some qc,
              f8, f9⟩ : PState) ms msg _ rfl
            (invoke_research llm net (ms ++ [Msg.mk "user" msg]) (some rr) (some rp)
              (some "conversation") sd qc f8 f9 _ resp a hp hr hcnd ha)
          rw [hcont] at hcc
          injection hcc with h3
          subst h3
          exact ⟨rfl, rfl⟩
  · subst hst
    subst hac
    have hne := continue_not_ok_of_invoke_err llm net
      (⟨some ms, some rr, some true, some rp, some "complete", some sd, some qc,
        f8, f9⟩ : PState) ms msg (PyErr.invalidRoute "final_response") rfl
      (invoke_acTrue llm net (ms ++ [Msg.mk "user" msg]) (some rr) (some rp)
        (some "complete") sd qc f8 f9 _ resp hp hr)
    rw [hcont] at hne
    simp [isOkE] at hne

/-- Claim C9: every reachable session satisfies `stage = complete →
analysis_complete = true` (`final_response` is the only writer of
`complete`, and it always sets the flag), and consequently the dispatcher
branch that reads the undefined local `last_user_message` (reached only when
the stage is `complete` and the last message is not a user message) is never
executed: in the compiled graph `determine_next_stage` runs only on the
post-`interactive_conversation` state, where it always returns one of the
labels `wait_for_user` / `start_research` / `final_response` — never the
`UnboundLocalError` branch. -/
theorem claim_C9 (llm : Oracle) (s : PState) (ms : List Msg) (msg : String) (d : PState)
    (hR : Reach s) (hm : s.messages = some ms)
    (hic : interactive_conversation llm (appendedState s ms msg) = Except.ok d) :
    ((s.conversation_stage == some "complete") = false ∨ s.analysis_complete = some true) ∧
    (determine_next_stage (merge (appendedState s ms msg) d) = Except.ok "wait_for_user" ∨
     determine_next_stage (merge (appendedState s ms msg) d) = Except.ok "start_research" ∨
     determine_next_stage (merge (appendedState s ms msg) d) = Except.ok "final_response") := by
  have hinv := reach_inv s hR
  obtain ⟨f1, f2, f3, f4, f5, f6, f7, f8, f9⟩ := s
  subst hm
  obtain ⟨⟨ms2, hm2, lm, hlm, hrole⟩, ⟨qc, hq⟩, ⟨sd, hsd⟩, ⟨rr, hrr⟩, ⟨rp, hrp⟩, hdisj⟩ := hinv
  subst hq hsd hrr hrp
  have hp := conversationPrompt_concat qc ms (Msg.mk "user" msg)
  rcases hdisj with ⟨hst, hac⟩ | ⟨hst, hac⟩
  · subst hst
    subst hac
    have happ : appendedState
        (⟨some ms, some rr, some false, some rp, some "conversation", some sd, some qc,
          f8, f9⟩ : PState) ms msg =
        (⟨some (ms ++ [Msg.mk "user" msg]), some rr, some false, some rp,
          some "conversation", some sd, some qc, f8, f9⟩ : PState) := rfl
    rw [happ] at hic ⊢
    rw [ic_char llm (ms ++ [Msg.mk "user" msg]) (some rr) (some false) (some rp)
      (some "conversation") sd qc f8 f9 _ hp] at hic
    cases hllm : llm (if (qc == 0) then firstQuestionPrompt (Msg.mk "user" msg).content
        else followupPrompt (format_conversation_history (ms ++ [Msg.mk "user" msg]))) with
    | error e =>
      rw [hllm] at hic
      exact absurd hic (by simp)
    | ok resp =>
      rw [hllm] at hic
      have hic2 : Except.ok (⟨some ((ms ++ [Msg.mk "user" msg]) ++ [Msg.mk "assistant" resp]),
          none, none, none,
          some (if enoughCond resp qc then "research" else "conversation"),
          some (updatedSymptomDetails llm (ms ++ [Msg.mk "user" msg]) sd), some (qc + 1),
          none, none⟩ : PState) = Except.ok d := hic
      injection hic2 with h3
      subst h3
      refine ⟨Or.inl rfl, ?_⟩
      cases hcnd : enoughCond resp qc with
      | false =>
        left
        exact (show determine_next_stage
          (⟨some ((ms ++ [Msg.mk "user" msg]) ++ [Msg.mk "assistant" resp]), some rr,
            some false, some rp, some "conversation",
            some (updatedSymptomDetails llm (ms ++ [Msg.mk "user" msg]) sd), some (qc + 1),
            f8, f9⟩ : PState) = Except.ok "wait_for_user" from by
          simp [determine_next_stage, getKey, List.getLast?_concat])
      | true =>
        right
        left
        exact (show determine_next_stage
          (⟨some ((ms ++ [Msg.mk "user" msg]) ++ [Msg.mk "assistant" resp]), some rr,
            some false, some rp, some "research",
            some (updatedSymptomDetails llm (ms ++ [Msg.mk "user" msg]) sd), some (qc + 1),
            f8, f9⟩ : PState) = Except.ok "start_research" from by
          simp [determine_next_stage, getKey, List.getLast?_concat])
  · subst hst
    subst hac
    have happ : appendedState
        (⟨some ms, some rr, some true, some rp, some "complete", some sd, some qc,
          f8, f9⟩ : PState) ms msg =
        (⟨some (ms ++ [Msg.mk "user" msg]), some rr, some true, some rp,
          some "complete", some sd, some qc, f8, f9⟩ : PState) := rfl
    rw [happ] at hic ⊢
    rw [ic_char llm (ms ++ [Msg.mk "user" msg]) (some rr) (some true) (some rp)
      (some "complete") sd qc f8 f9 _ hp] at hic
    cases hllm : llm (if (qc == 0) then firstQuestionPrompt (Msg.mk "user" msg).content
        else followupPrompt (format_conversation_history (ms ++ [Msg.mk "user" msg]))) with
    | error e =>
      rw [hllm] at hic
      exact absurd hic (by simp)
    | ok resp =>
      rw [hllm] at hic
      have hic2 : Except.ok (⟨some ((ms ++ [Msg.mk "user" msg]) ++ [Msg.mk "assistant" resp]),
          none, none, none,
          some (if enoughCond resp qc then "research" else "conversation"),
          some (updatedSymptomDetails llm (ms ++ [Msg.mk "user" msg]) sd), some (qc + 1),
          none, none⟩ : PState) = Except.ok d := hic
      injection hic2 with h3
      subst h3
      refine ⟨Or.inr rfl, Or.inr (Or.inr ?_)⟩
      exact (show determine_next_stage
        (⟨some ((ms ++ [Msg.mk "user" msg]) ++ [Msg.mk "assistant" resp]), some rr,
          some true, some rp,
          some (if enoughCond resp qc then "research" else "conversation"),
          some (updatedSymptomDetails llm (ms ++ [Msg.mk "user" msg]) sd), some (qc + 1),
          f8, f9⟩ : PState) = Except.ok "final_response" from by
        simp [determine_next_stage])

/-- Witness for C1 at a concrete reachable session (the committed first turn
for "I have chest pain") and a concrete second turn. -/
theorem claim_C1_witness :
    ((⟨some [Msg.mk "user" "I have chest pain",
        Msg.mk "assistant" "Could you describe the pain further?"],
      some none, some false, some none, some "conversation",
      some (some ("Could you describe the pain further?", 1)), some 1, none, none⟩ :
        PState).conversation_stage = some "conversation" ∧
     (⟨some [Msg.mk "user" "I have chest pain",
        Msg.mk "assistant" "Could you describe the pain further?"],
      some none, some false, some none, some "conversation",
      some (some ("Could you describe the pain further?", 1)), some 1, none, none⟩ :
        PState).analysis_complete = some false) ∧
    (interactive_conversation llmK (appendedState
      (⟨some [Msg.mk "user" "I have chest pain",
        Msg.mk "assistant" "Could you describe the pain further?"],
      some none, some false, some none, some "conversation",
      some (some ("Could you describe the pain further?", 1)), some 1, none, none⟩ : PState)
      [Msg.mk "user" "I have chest pain",
        Msg.mk "assistant" "Could you describe the pain further?"]
      "worse")).map PState.conversation_stage =
      Except.ok (some (if enoughCond "Could you describe the pain further?" 1
        then "research" else "conversation")) ∧
    (⟨some (([Msg.mk "user" "I have chest pain",
        Msg.mk "assistant" "Could you describe the pain further?"] ++
        [Msg.mk "user" "worse"]) ++
        [Msg.mk "assistant" "Could you describe the pain further?"]),
      some none, some false, some none, some "conversation",
      some (some ("Could you describe the pain further?", 3)), some (1 + 1), none, none⟩ :
        PState).conversation_stage =
      some (if enoughCond "Could you describe the pain further?" 1
        then "complete" else "conversation") ∧
    (⟨some (([Msg.mk "user" "I have chest pain",
        Msg.mk "assistant" "Could you describe the pain further?"] ++
        [Msg.mk "user" "worse"]) ++
        [Msg.mk "assistant" "Could you describe the pain further?"]),
      some none, some false, some none, some "conversation",
      some (some ("Could you describe the pain further?", 3)), some (1 + 1), none, none⟩ :
        PState).analysis_complete =
      some (enoughCond "Could you describe the pain further?" 1) :=
  claim_C1 llmK netK
    (⟨some [Msg.mk "user" "I have chest pain",
        Msg.mk "assistant" "Could you describe the pain further?"],
      some none, some false, some none, some "conversation",
      some (some ("Could you describe the pain further?", 1)), some 1, none, none⟩ : PState)
    (⟨some (([Msg.mk "user" "I have chest pain",
        Msg.mk "assistant" "Could you describe the pain further?"] ++
        [Msg.mk "user" "worse"]) ++
        [Msg.mk "assistant" "Could you describe the pain further?"]),
      some none, some false, some none, some "conversation",
      some (some ("Could you describe the pain further?", 3)), some (1 + 1), none, none⟩ : PState)
    "worse"
    [Msg.mk "user" "I have chest pain",
      Msg.mk "assistant" "Could you describe the pain further?"]
    1 (some ("Could you describe the pain further?", 1))
    "Could you describe the pain further?"
    (Reach.start llmK netK "I have chest pain"
      (⟨some [Msg.mk "user" "I have chest pain",
          Msg.mk "assistant" "Could you describe the pain further?"],
        some none, some false, some none, some "conversation",
        some (some ("Could you describe the pain further?", 1)), some 1, none, none⟩ : PState)
      rfl)
    rfl rfl rfl rfl rfl

/-- Witness for C9 at the same concrete reachable session. -/
theorem claim_C9_witness :
    (((⟨some [Msg.mk "user" "I have chest pain",
        Msg.mk "assistant" "Could you describe the pain further?"],
      some none, some false, some none, some "conversation",
      some (some ("Could you describe the pain further?", 1)), some 1, none, none⟩ :
        PState).conversation_stage == some "complete") = false ∨
     (⟨some [Msg.mk "user" "I have chest pain",
        Msg.mk "assistant" "Could you describe the pain further?"],
      some none, some false, some none, some "conversation",
      some (some ("Could you describe the pain further?", 1)), some 1, none, none⟩ :
        PState).analysis_complete = some true) ∧
    (determine_next_stage (merge (appendedState
        (⟨some [Msg.mk "user" "I have chest pain",
            Msg.mk "assistant" "Could you describe the pain further?"],
          some none, some false, some none, some "conversation",
          some (some ("Could you describe the pain further?", 1)), some 1, none, none⟩ : PState)
        [Msg.mk "user" "I have chest pain",
          Msg.mk "assistant" "Could you describe the pain further?"] "again")
        (⟨some (([Msg.mk "user" "I have chest pain",
            Msg.mk "assistant" "Could you describe the pain further?"] ++
            [Msg.mk "user" "again"]) ++
            [Msg.mk "assistant" "Could you describe the pain further?"]),
          none, none, none, some "conversation",
          some (some ("Could you describe the pain further?", 3)), some 2, none, none⟩ :
            PState)) = Except.ok "wait_for_user" ∨
     determine_next_stage (merge (appendedState
        (⟨some [Msg.mk "user" "I have chest pain",
            Msg.mk "assistant" "Could you describe the pain further?"],
          some none, some false, some none, some "conversation",
          some (some ("Could you describe the pain further?", 1)), some 1, none, none⟩ : PState)
        [Msg.mk "user" "I have chest pain",
          Msg.mk "assistant" "Could you describe the pain further?"] "again")
        (⟨some (([Msg.mk "user" "I have chest pain",
            Msg.mk "assistant" "Could you describe the pain further?"] ++
            [Msg.mk "user" "again"]) ++
            [Msg.mk "assistant" "Could you describe the pain further?"]),
          none, none, none, some "conversation",
          some (some ("Could you describe the pain further?", 3)), some 2, none, none⟩ :
            PState)) = Except.ok "start_research" ∨
     determine_next_stage (merge (appendedState
        (⟨some [Msg.mk "user" "I have chest pain",
            Msg.mk "assistant" "Could you describe the pain further?"],
          some none, some false, some none, some "conversation",
          some (some ("Could you describe the pain further?", 1)), some 1, none, none⟩ : PState)
        [Msg.mk "user" "I have chest pain",
          Msg.mk "assistant" "Could you describe the pain further?"] "again")
        (⟨some (([Msg.mk "user" "I have chest pain",
            Msg.mk "assistant" "Could you describe the pain further?"] ++
            [Msg.mk "user" "again"]) ++
            [Msg.mk "assistant" "Could you describe the pain further?"]),
          none, none, none, some "conversation",
          some (some ("Could you describe the pain further?", 3)), some 2, none, none⟩ :
            PState)) = Except.ok "final_response") :=
  claim_C9 llmK
    (⟨some [Msg.mk "user" "I have chest pain",
        Msg.mk "assistant" "Could you describe the pain further?"],
      some none, some false, some none, some "conversation",
      some (some ("Could you describe the pain further?", 1)), some 1, none, none⟩ : PState)
    [Msg.mk "user" "I have chest pain",
      Msg.mk "assistant" "Could you describe the pain further?"]
    "again"
    (⟨some (([Msg.mk "user" "I have chest pain",
        Msg.mk "assistant" "Could you describe the pain further?"] ++
        [Msg.mk "user" "again"]) ++
        [Msg.mk "assistant" "Could you describe the pain further?"]),
      none, none, none, some "conversation",
      some (some ("Could you describe the pain further?", 3)), some 2, none, none⟩ : PState)
    (Reach.start llmK netK "I have chest pain"
      (⟨some [Msg.mk "user" "I have chest pain",
          Msg.mk "assistant" "Could you describe the pain further?"],
        some none, some false, some none, some "conversation",
        some (some ("Could you describe the pain further?", 1)), some 1, none, none⟩ : PState)
      rfl)
    rfl rfl
